import Mathlib

/-!
Shallow embedding of the "movers" motion/lifecycle subsystem of the
Sol-R Aim Trainer repository (src/js/systems/movers.js, src/js/main.js,
src/js/config.js), used to settle the frozen claims about the spec.

Modelling conventions
* JS numbers are modelled by `ℚ` wherever the code only performs field
  arithmetic and comparisons; the micro-pattern library (which uses
  `Math.sin`/`Math.cos`/`Math.pow`) is modelled over `ℝ` in its own
  section.
* `Math.random()` draws are threaded explicitly: every function that
  draws randomness takes the raw uniform draws (values in `[0,1)`) as
  parameters and applies the source's own formulas
  (`rand(a,b) = a + u*(b-a)`, `Math.floor(u*len)`, ...) to them.
* `Math.hypot` (a real square root) is a parameter `J.hypot` of the
  embedding, bundled in `JsMath`: none of the verified properties
  depends on its value, only on where the code uses it, except the
  hit test, whose comparisons are carried verbatim through `J.hypot`.
* `performance.now()` timestamps are explicit `ℚ` arguments.
* Nullable DOM context (`state.canvas`) is `Option Canvas`; a JS
  `TypeError` on a null dereference is `Except.error JsError.typeError`.
-/

namespace Aim

/-- A JS runtime error surfaced by the embedded code (the only one the
modelled paths can raise is the `TypeError` from dereferencing a null
`state.canvas`). -/
inductive JsError where
  | typeError
  deriving Repr, DecidableEq

/-- The `Math` functions the source uses whose exact real-number values
never matter for the claims (only the control flow around them does).
`hypot x y` stands for `Math.hypot(x, y)`, `sin`/`cos` for
`Math.sin`/`Math.cos` as used in the FM/AM modulation of `updateMovers`. -/
structure JsMath where
  hypot : ℚ → ℚ → ℚ
  sin : ℚ → ℚ
  cos : ℚ → ℚ

/-- Micro-pattern names, in the insertion order of the
`MICRO_PATTERNS` object literal (movers.js:41-132); that order is what
`Object.keys` (`MICRO_PATTERN_NAMES`) iterates. -/
inductive PatternName where
  | figure8 | figure8Wide | figure8Spiral | spiral | spiralBurst
  | rosette | swerveStop
  deriving Repr, DecidableEq

/-- The list `MICRO_PATTERN_NAMES = Object.keys(MICRO_PATTERNS)`. -/
def MICRO_PATTERN_NAMES : List PatternName :=
  [.figure8, .figure8Wide, .figure8Spiral, .spiral, .spiralBurst,
   .rosette, .swerveStop]

/-- JS `name.startsWith('figure8')` on a pattern name. -/
def PatternName.isFigure8Family : PatternName → Bool
  | .figure8 | .figure8Wide | .figure8Spiral => true
  | _ => false

/-- JS `name.includes('spiral')` on a pattern name.  Note this is
case-sensitive in the source, so 'figure8Spiral' (capital S) does NOT
match and is scaled with `TIER_SCALE`, not `SPIRAL_SCALE`. -/
def PatternName.includesSpiral : PatternName → Bool
  | .spiral | .spiralBurst => true
  | _ => false

/-- Size tiers (movers.js `MICRO_TIERS` elements). -/
inductive Tier where
  | S | M | L
  deriving Repr, DecidableEq

/-- The cyclic tier sequence `MICRO_TIERS = ['S','M','L','M','S']`. -/
def MICRO_TIERS : List Tier := [.S, .M, .L, .M, .S]

/-- Role names, in the insertion order of the `ROLES` object
(movers.js:149-170). -/
inductive RoleName where
  | Runner | Dancer | Trickster | Kiter
  deriving Repr, DecidableEq

/-- The iteration order of `for (const r in ROLES)` / `Object.entries`. -/
def roleOrder : List RoleName := [.Runner, .Dancer, .Trickster, .Kiter]

/-- Episode names, in the insertion order of the `EPISODES` object
(movers.js:185-210). -/
inductive EpisodeName where
  | Explore | Perform | Evade | Kite
  deriving Repr, DecidableEq

/-- The iteration order of `for (const e in EPISODES)` / `Object.entries`. -/
def episodeOrder : List EpisodeName := [.Explore, .Perform, .Evade, .Kite]

/-- A role's static data (movers.js `ROLES`).  `patternWeights` and
`tierWeights` are total functions with the JS lookup's `|| 1` default
already folded in for patterns the object literal does not list. -/
structure RoleSpec where
  anchorBias : ℚ
  patternWeights : PatternName → ℚ
  tierWeights : Tier → ℚ

/-- The `ROLES` table (movers.js:149-170); unlisted pattern weights
default to 1 (the `rolePat[name] || 1` read sites). -/
def ROLES : RoleName → RoleSpec
  | .Runner =>
    { anchorBias := 7/10
      patternWeights := fun p => match p with
        | .spiral => 2 | .spiralBurst => 3/2 | .figure8 => 1
        | .figure8Wide => 1/2 | .figure8Spiral => 1/2 | _ => 1
      tierWeights := fun t => match t with
        | .S => 1 | .M => 3/2 | .L => 2 }
  | .Dancer =>
    { anchorBias := -1/5
      patternWeights := fun p => match p with
        | .figure8 => 2 | .figure8Wide => 3/2 | .figure8Spiral => 6/5
        | .spiral => 1/2 | .spiralBurst => 1/2 | _ => 1
      tierWeights := fun t => match t with
        | .S => 3/2 | .M => 1 | .L => 4/5 }
  | .Trickster =>
    { anchorBias := 0
      patternWeights := fun p => match p with
        | .figure8Wide => 2 | .figure8Spiral => 2 | .spiralBurst => 1
        | .spiral => 4/5 | .figure8 => 4/5 | _ => 1
      tierWeights := fun _ => 1 }
  | .Kiter =>
    { anchorBias := 1/2
      patternWeights := fun p => match p with
        | .spiral => 9/5 | .spiralBurst => 9/5 | .figure8 => 1
        | .figure8Wide => 1/2 | .figure8Spiral => 1/2 | _ => 1
      tierWeights := fun t => match t with
        | .S => 4/5 | .M => 6/5 | .L => 9/5 }

/-- An episode's static data (movers.js `EPISODES`). -/
structure EpisodeSpec where
  anchorBias : ℚ
  patternWeights : PatternName → ℚ
  tierWeights : Tier → ℚ
  macroSpeed : ℚ

/-- The `EPISODES` table (movers.js:185-210); every pattern is listed
explicitly there. -/
def EPISODES : EpisodeName → EpisodeSpec
  | .Explore =>
    { anchorBias := 1/5
      patternWeights := fun p => match p with
        | .figure8 => 1 | .figure8Wide => 1 | .figure8Spiral => 7/10
        | .spiral => 3/5 | .spiralBurst => 1/2 | .rosette => 4/5
        | .swerveStop => 4/5
      tierWeights := fun t => match t with
        | .S => 6/5 | .M => 1 | .L => 4/5
      macroSpeed := 11/10 }
  | .Perform =>
    { anchorBias := 0
      patternWeights := fun p => match p with
        | .figure8 => 2 | .figure8Wide => 3/2 | .figure8Spiral => 6/5
        | .spiral => 6/5 | .spiralBurst => 1 | .rosette => 7/10
        | .swerveStop => 1/2
      tierWeights := fun t => match t with
        | .S => 4/5 | .M => 6/5 | .L => 8/5
      macroSpeed := 7/10 }
  | .Evade =>
    { anchorBias := 3/5
      patternWeights := fun p => match p with
        | .figure8 => 7/10 | .figure8Wide => 7/10 | .figure8Spiral => 4/5
        | .spiral => 3/5 | .spiralBurst => 4/5 | .rosette => 1
        | .swerveStop => 3/2
      tierWeights := fun t => match t with
        | .S => 8/5 | .M => 1 | .L => 7/10
      macroSpeed := 7/5 }
  | .Kite =>
    { anchorBias := 4/5
      patternWeights := fun p => match p with
        | .figure8 => 4/5 | .figure8Wide => 3/5 | .figure8Spiral => 7/10
        | .spiral => 3/2 | .spiralBurst => 13/10 | .rosette => 6/5
        | .swerveStop => 3/5
      tierWeights := fun t => match t with
        | .S => 9/10 | .M => 11/10 | .L => 7/5
      macroSpeed := 1 }

/-! Constants from src/js/config.js and movers.js. -/

/-- config.js `MOVERS_MAX_HITS = 3`. -/
def MOVERS_MAX_HITS : Int := 3

/-- config.js `HEAL_INTERVAL_MS = 4000`. -/
def HEAL_INTERVAL_MS : ℚ := 4000

/-- config.js `MARGIN = 140`. -/
def MARGIN : ℚ := 140

/-- movers.js heatmap dimensions (16 columns x 9 rows). -/
def HEAT_COLS : Nat := 16

/-- movers.js heatmap row count. -/
def HEAT_ROWS : Nat := 9

/-- movers.js `HEATMAP_DECAY = 0.98`. -/
def HEATMAP_DECAY : ℚ := 98/100

/-- movers.js `HEATMAP_INCREMENT = 1.0`. -/
def HEATMAP_INCREMENT : ℚ := 1

/-- movers.js `ANCHOR_MIN_MS` / `ANCHOR_MAX_MS`. -/
def ANCHOR_MIN_MS : ℚ := 2500

/-- movers.js anchor re-choice upper bound. -/
def ANCHOR_MAX_MS : ℚ := 6000

/-- movers.js `MICRO_MIN_MS`. -/
def MICRO_MIN_MS : ℚ := 2500

/-- movers.js `MICRO_MAX_MS`. -/
def MICRO_MAX_MS : ℚ := 5000

/-- movers.js `MICRO_BLEND_MS = 600`. -/
def MICRO_BLEND_MS : ℚ := 600

/-- movers.js `TIER_SCALE = { S: 0.15, M: 0.35, L: 0.60 }`. -/
def TIER_SCALE : Tier → ℚ
  | .S => 15/100 | .M => 35/100 | .L => 60/100

/-- movers.js `SPIRAL_SCALE = { S: 0.25, M: 0.50, L: 0.75 }`. -/
def SPIRAL_SCALE : Tier → ℚ
  | .S => 25/100 | .M => 50/100 | .L => 75/100

/-- movers.js `EPISODE_MAX_COUNT = 2` and `ROLE_MAX_COUNT = 2`. -/
def CATEGORY_MAX_COUNT : Int := 2

/-- The mutable configuration object `CFG` (config.js), restricted to
the fields the movers subsystem reads. -/
structure Config where
  moversEnabled : Bool
  moversCount : Int
  regenOnHit : Bool
  moversFlee : Bool
  moversHit1Boost : ℚ
  moversHit2Boost : ℚ
  moversSpeed : ℚ
  moversAvoid : ℚ
  moversR : ℚ
  deriving Repr, DecidableEq

/-- The canvas context: `state.canvas.width`/`.height` are all the
movers code reads from it. -/
structure Canvas where
  width : ℚ
  height : ℚ
  deriving Repr, DecidableEq

/-- utils/math.js `clamp(v, a, b) = Math.max(a, Math.min(b, v))`. -/
def clamp (v a b : ℚ) : ℚ := max a (min b v)

/-- Integer version of `clamp` as applied to `CFG.moversCount | 0`. -/
def clampInt (v a b : Int) : Int := max a (min b v)

/-- utils/math.js `rand(a, b) = a + Math.random() * (b - a)`, with the
uniform draw `u` made explicit. -/
def randAt (a b u : ℚ) : ℚ := a + u * (b - a)

/-- The mover entity: the fields of the object literal built by
`spawnMoverInWindow` (movers.js:905-979) that the new (anchor +
micro-pattern) code path reads or writes.  The legacy fields
`originX/originY/pattern/nextPatternSwitch` are carried verbatim by the
source and never read by the live code path (the top block of
`updateMovers` returns before the legacy pattern switch), so they are
omitted here.  `dna` is inlined as the four `dna*` fields. -/
structure Mover where
  x : ℚ
  y : ℚ
  vx : ℚ
  vy : ℚ
  r : ℚ
  t0 : ℚ
  p1 : ℚ
  p2 : ℚ
  hitUntil : ℚ
  hits : Int
  escapeBoost : ℚ
  lastHitTime : ℚ
  dead : Bool
  deadStart : ℚ
  anchorSx : ℚ
  anchorSy : ℚ
  anchorExpires : ℚ
  microPattern : PatternName
  microTier : Tier
  microTierIndex : Int
  microStart : ℚ
  microDuration : ℚ
  microBlendStart : ℚ
  microNextSwitch : ℚ
  prevOffsetX : ℚ
  prevOffsetY : ℚ
  microGain : ℚ
  microGainEff : Option ℚ
  nonFigureCount : Int
  fleeSide : Int
  role : RoleName
  roleExpires : ℚ
  episode : EpisodeName
  episodeExpires : ℚ
  dnaWBase : ℚ
  dnaMicroGainMin : ℚ
  dnaMicroGainMax : ℚ
  dnaFeintChance : ℚ
  wCurrent : ℚ
  anchorPosSx : ℚ
  anchorPosSy : ℚ
  anchorTargetSx : ℚ
  anchorTargetSy : ℚ
  anchorVelSx : ℚ
  anchorVelSy : ℚ
  anchorMoveStart : ℚ
  anchorMoveDuration : ℚ
  anchorMoveEnd : ℚ
  frameAngle : ℚ
  frameRate : ℚ
  amPhase : ℚ
  fmPhase : ℚ
  phaseFlipUntil : ℚ
  zigZagUntil : ℚ

/-- Weighted random pick over a candidate list: the cumulative-sum
selection used by `chooseNewMicro` (movers.js:602-616) and the initial
pattern/tier draws in `spawnMoverInWindow` (movers.js:878-903).
`rPick` stands for the already-scaled draw `Math.random() * sum`; the
chosen element is the first whose cumulative weight reaches `rPick`,
with the source's fallback to the first candidate. -/
def pickWeighted (cands : List α) (w : α → ℚ) (rPick : ℚ) (dflt : α) : α :=
  go cands 0
where
  go : List α → ℚ → α
    | [], _ => (cands.headD dflt)
    | a :: rest, acc =>
      if rPick ≤ acc + w a then a else go rest (acc + w a)

/-- Total weight of a candidate list (the `sum` accumulated alongside
the cumulative array in the source). -/
def totalWeight (cands : List α) (w : α → ℚ) : ℚ :=
  cands.foldl (fun s a => s + w a) 0

/-- utils/math.js `worldToScreen(dx, dy, cos, sin)`. -/
def worldToScreen (dx dy c s : ℚ) : ℚ × ℚ :=
  (dx * c - dy * s, dx * s + dy * c)

/-- utils/math.js `screenToWorld(sx, sy, cos, sin)`. -/
def screenToWorld (sx sy c s : ℚ) : ℚ × ℚ :=
  (sx * c + sy * s, -sx * s + sy * c)

/-- JS `MICRO_TIERS.indexOf(tier)` (first occurrence in
`['S','M','L','M','S']`). -/
def tierIndexOf : Tier → Int
  | .S => 0 | .M => 1 | .L => 2

/-- The `Math.random()` draws consumed by one call of
`spawnMoverInWindow` (movers.js:811-980), as raw uniforms in `[0,1)`
except for the four angle draws, which carry the already-evaluated
result of `rand(0, Math.PI*2)` (2*pi is irrational, so those draws are
stored post-`rand`).  `roleChoice`/`episodeChoice` are the values
returned by `pickRole()`/`pickEpisode()`; the population-count
bookkeeping done inside those functions is modelled separately by the
category-count state machine below. -/
structure SpawnParams where
  posDraws : List (ℚ × ℚ)
  dirU1 : ℚ
  dirU2 : ℚ
  roleChoice : RoleName
  episodeChoice : EpisodeName
  wBaseU : ℚ
  gainMinU : ℚ
  gainMaxU : ℚ
  feintU : ℚ
  microGainU : ℚ
  patternU : ℚ
  tierU : ℚ
  p1Draw : ℚ
  p2Draw : ℚ
  microDurU : ℚ
  microNextU : ℚ
  roleExpU : ℚ
  epExpU : ℚ
  frameAngleDraw : ℚ
  frameRateU : ℚ
  amPhaseDraw : ℚ
  fmPhaseDraw : ℚ
  fleeSideU : ℚ

/-- The spawn placement loop (movers.js:821-828): up to 30 draws of a
position inside the margins, stopping at the first one at distance at
least `minD = 90` from the crosshair; the last draw (or the `(0,0)`
initialisation when there are no tries) is kept if every try fails. -/
def spawnPos (J : JsMath) (limX limY r : ℚ) : List (ℚ × ℚ) → ℚ × ℚ
  | [] => (0, 0)
  | [u] => (randAt (-limX + r) (limX - r) u.1, randAt (-limY + r) (limY - r) u.2)
  | u :: u' :: rest =>
    let sx := randAt (-limX + r) (limX - r) u.1
    let sy := randAt (-limY + r) (limY - r) u.2
    if 90 ≤ J.hypot sx sy then (sx, sy) else spawnPos J limX limY r (u' :: rest)

/-- movers.js `spawnMoverInWindow()` (lines 811-980).  `playerX/playerY`
and `cosR/sinR` are `state.player` and the cos/sin of `state.rollAngle`;
`t` is the `nowMs()` read.  The legacy fields
`originX/originY/pattern/nextPatternSwitch` of the source literal are
never read by the live code path and are not modelled; `microGainEff`
and the feint timers are absent (undefined) in the fresh object, which
is modelled as `none` / `0`. -/
def spawnMoverInWindow (J : JsMath) (cfg : Config) (cv : Canvas)
    (playerX playerY cosR sinR t : ℚ) (sp : SpawnParams) : Mover :=
  let limX := cv.width / 2 - MARGIN
  let limY := cv.height / 2 - MARGIN
  let r := clamp cfg.moversR 4 (min limX limY)
  let pos := spawnPos J limX limY r sp.posDraws
  let w := screenToWorld pos.1 pos.2 cosR sinR
  let svx := randAt (-1) 1 sp.dirU1
  let svy := randAt (-1) 1 sp.dirU2
  let spd := J.hypot svx svy
  let spd := if spd = 0 then 1 else spd
  let vw := screenToWorld (svx / spd) (svy / spd) cosR sinR
  let x := playerX + w.1
  let y := playerY + w.2
  let role := sp.roleChoice
  let episode := sp.episodeChoice
  let dnaWBase := randAt 1 (22/10) sp.wBaseU
  let dnaMicroGainMin := randAt (6/10) (12/10) sp.gainMinU
  let dnaMicroGainMax := randAt (12/10) (18/10) sp.gainMaxU
  let dnaFeintChance := randAt (1/10) (4/10) sp.feintU
  let initialMicroGain := randAt dnaMicroGainMin dnaMicroGainMax sp.microGainU
  let patW := (ROLES role).patternWeights
  let initialPattern := pickWeighted MICRO_PATTERN_NAMES patW
    (sp.patternU * totalWeight MICRO_PATTERN_NAMES patW) .figure8
  let tierW := (ROLES role).tierWeights
  let chosenTier := pickWeighted [Tier.S, Tier.M, Tier.L] tierW
    (sp.tierU * totalWeight [Tier.S, Tier.M, Tier.L] tierW) .S
  { x := x, y := y, vx := vw.1, vy := vw.2, r := r
    t0 := t, p1 := sp.p1Draw, p2 := sp.p2Draw
    hitUntil := 0, hits := 0, escapeBoost := 0, lastHitTime := 0
    dead := false, deadStart := 0
    anchorSx := 0, anchorSy := 0, anchorExpires := 0
    microPattern := initialPattern
    microTier := chosenTier
    microTierIndex := tierIndexOf chosenTier
    microStart := t
    microDuration := randAt MICRO_MIN_MS MICRO_MAX_MS sp.microDurU
    microBlendStart := t
    microNextSwitch := t + randAt MICRO_MIN_MS MICRO_MAX_MS sp.microNextU
    prevOffsetX := 0, prevOffsetY := 0
    microGain := initialMicroGain
    microGainEff := none
    nonFigureCount := if initialPattern.isFigure8Family then 0 else 1
    fleeSide := if sp.fleeSideU < 1/2 then 1 else -1
    role := role, roleExpires := t + randAt 8000 16000 sp.roleExpU
    episode := episode, episodeExpires := t + randAt 2000 6000 sp.epExpU
    dnaWBase := dnaWBase, dnaMicroGainMin := dnaMicroGainMin
    dnaMicroGainMax := dnaMicroGainMax, dnaFeintChance := dnaFeintChance
    wCurrent := dnaWBase
    anchorPosSx := 0, anchorPosSy := 0
    anchorTargetSx := 0, anchorTargetSy := 0
    anchorVelSx := 0, anchorVelSy := 0
    anchorMoveStart := t, anchorMoveDuration := 3000, anchorMoveEnd := t + 3000
    frameAngle := sp.frameAngleDraw
    frameRate := randAt (3/10000) (9/10000) sp.frameRateU
    amPhase := sp.amPhaseDraw, fmPhase := sp.fmPhaseDraw
    phaseFlipUntil := 0, zigZagUntil := 0 }

/-- movers.js `respawnMover(m)` (lines 987-1053): builds a fresh mover
with `spawnMoverInWindow` and copies every field of it onto `m`.  The
only modelled fields the source does NOT copy are `microGainEff`, the
feint timers `phaseFlipUntil`/`zigZagUntil` and `deadStart`, which keep
their previous values.  The role/episode count adjustments
(lines 1033-1036) are modelled by the category-count state machine
below. -/
def respawnMover (J : JsMath) (cfg : Config) (cv : Canvas)
    (playerX playerY cosR sinR t : ℚ) (sp : SpawnParams) (m : Mover) : Mover :=
  let nm := spawnMoverInWindow J cfg cv playerX playerY cosR sinR t sp
  { nm with
    microGainEff := m.microGainEff
    phaseFlipUntil := m.phaseFlipUntil
    zigZagUntil := m.zigZagUntil
    deadStart := m.deadStart }

/-- The mover branch of `shoot()` in main.js (lines 84-123): the effect
of one registered hit on the mover `m` at time `t`.  The `|| 0`
defaults on `CFG.moversHit1Boost`/`CFG.moversHit2Boost` are identities
on the modelled rational config values. -/
def registerHit (J : JsMath) (cfg : Config) (cv : Canvas)
    (playerX playerY cosR sinR t : ℚ) (sp : SpawnParams) (m : Mover) : Mover :=
  let m1 : Mover := { m with hitUntil := t + 140, hits := m.hits + 1, lastHitTime := t }
  let esc : ℚ :=
    if m1.hits = 1 then cfg.moversHit1Boost
    else if 2 ≤ m1.hits then cfg.moversHit1Boost + cfg.moversHit2Boost
    else 0
  let m2 : Mover := { m1 with escapeBoost := esc }
  if MOVERS_MAX_HITS ≤ m2.hits then
    let m3 : Mover := { m2 with hits := MOVERS_MAX_HITS }
    if cfg.regenOnHit then
      respawnMover J cfg cv playerX playerY cosR sinR t sp m3
    else
      { m3 with dead := true, hitUntil := 0, lastHitTime := 0 }
  else m2

/-- The escape-boost value `shoot()` computes from the post-increment
hit count (main.js:97-102), extended with the value `0` that freshly
spawned, healed and respawned movers carry at hit count 0. -/
def escapeBoostFor (cfg : Config) (hits : Int) : ℚ :=
  if hits = 1 then cfg.moversHit1Boost
  else if 2 ≤ hits then cfg.moversHit1Boost + cfg.moversHit2Boost
  else 0

/-- movers.js `hitTestMovers()` (lines 1705-1715): index of the first
non-dead mover whose distance to the player is below its radius, `-1`
when none, with the early `-1` when movers are disabled or the list is
empty. -/
def hitTestMovers (J : JsMath) (cfg : Config) (playerX playerY : ℚ)
    (movers : List Mover) : Int :=
  if cfg.moversEnabled = false ∨ movers.length = 0 then -1
  else go movers 0
where
  go : List Mover → Int → Int
    | [], _ => -1
    | m :: rest, i =>
      if m.dead = false ∧ J.hypot (m.x - playerX) (m.y - playerY) < m.r then i
      else go rest (i + 1)

/-- movers.js `ensureMoversCount()` (lines 769-778).  The target count
is 0 when movers are disabled, else `CFG.moversCount` clamped to
`[0,5]`; at 0 the list is emptied without touching the canvas, growing
spawns fresh movers (dereferencing `state.canvas`, hence the
`TypeError` when it is null), shrinking pops from the end.  The
write-back `CFG.moversCount = n` only persists the clamp and is not
modelled. -/
def ensureMoversCount (J : JsMath) (cfg : Config) (canvas : Option Canvas)
    (playerX playerY cosR sinR t : ℚ) (sps : Nat → SpawnParams)
    (movers : List Mover) : Except JsError (List Mover) :=
  let n : Int := if cfg.moversEnabled then clampInt cfg.moversCount 0 5 else 0
  if n = 0 then .ok []
  else
    let nn := n.toNat
    if movers.length < nn then
      match canvas with
      | none => .error .typeError
      | some cv =>
        .ok (movers ++ (List.range (nn - movers.length)).map
          (fun k => spawnMoverInWindow J cfg cv playerX playerY cosR sinR t (sps k)))
    else .ok (movers.take nn)

/-- movers.js `respawnAllMovers()` (lines 790-802): reconcile the count,
then reset every mover in place via `respawnMover` followed by the
explicit `dead/hits/escapeBoost/lastHitTime` clears.  `sps` feeds the
spawns of `ensureMoversCount`, `rsps` the per-index respawn draws. -/
def respawnAllMovers (J : JsMath) (cfg : Config) (canvas : Option Canvas)
    (playerX playerY cosR sinR t : ℚ) (sps rsps : Nat → SpawnParams)
    (movers : List Mover) : Except JsError (List Mover) :=
  match ensureMoversCount J cfg canvas playerX playerY cosR sinR t sps movers with
  | .error e => .error e
  | .ok ms =>
    match canvas with
    | none => if ms.length = 0 then .ok [] else .error .typeError
    | some cv =>
      .ok (ms.enum.map (fun p =>
        let m' := respawnMover J cfg cv playerX playerY cosR sinR t (rsps p.1) p.2
        { m' with dead := false, hits := 0, escapeBoost := 0, lastHitTime := 0 }))

/-! The heat map (movers.js:299-382). -/

/-- The global `heatMap`: a 9-row by 16-column grid of heat values. -/
def HeatMap : Type := Fin HEAT_ROWS → Fin HEAT_COLS → ℚ

/-- movers.js `decayHeatMap()` (lines 361-368): every cell is
multiplied by `HEATMAP_DECAY = 0.98`. -/
def decayHeatMap (h : HeatMap) : HeatMap :=
  fun r c => h r c * HEATMAP_DECAY

/-- The `heatMap[row][col] += amt` increment sites
(movers.js:452, 551, 1099). -/
def bumpHeat (h : HeatMap) (cell : Fin HEAT_ROWS × Fin HEAT_COLS) (amt : ℚ) : HeatMap :=
  fun r c => if r = cell.1 ∧ c = cell.2 then h r c + amt else h r c

/-- Clamp an integer index into `Fin n` (the `clamp(cx, 0, COLS-1)`
pattern of `getCellForPos`). -/
def clampToFin (n : Nat) (hn : 0 < n) (v : Int) : Fin n :=
  ⟨(clampInt v 0 (n - 1)).toNat, by
    have h1 : clampInt v 0 (n - 1) ≤ (n : Int) - 1 := by
      simp only [clampInt]; omega
    omega⟩

/-- movers.js `getCellForPos(sx, sy, limX, limY)` (lines 373-382).
Lean's 0-valued division by zero only matters for a degenerate
zero-sized arena, which no claim concerns. -/
def getCellForPos (sx sy limX limY : ℚ) : Fin HEAT_ROWS × Fin HEAT_COLS :=
  let cellW := limX * 2 / (HEAT_COLS : ℚ)
  let cellH := limY * 2 / (HEAT_ROWS : ℚ)
  let cx : Int := ⌊(sx + limX) / cellW⌋
  let cy : Int := ⌊(sy + limY) / cellH⌋
  (clampToFin HEAT_ROWS (by decide) cy, clampToFin HEAT_COLS (by decide) cx)

/-! The anchor scheduler (movers.js:479-569). -/

/-- A live target in screen coordinates, as collected into
`liveTargetsScr` (movers.js:1076-1083). -/
structure TargetScr where
  sx : ℚ
  sy : ℚ
  r : ℚ

/-- The random draws of one candidate iteration of the
`chooseNewAnchorTarget` loop (movers.js:486-495): the two
`rand(0, HEAT_COLS/ROWS)` cell draws and the two jitter draws, as raw
uniforms in `[0,1)`. -/
structure AnchorDraw where
  colU : ℚ
  rowU : ℚ
  jxU : ℚ
  jyU : ℚ

/-- The full randomness of one `chooseNewAnchorTarget` call: the
candidate draws (25 in the source), the fallback-point draws and the
`rand(2000, 5000)` duration draw. -/
structure AnchorDraws where
  cands : List AnchorDraw
  fbU1 : ℚ
  fbU2 : ℚ
  durU : ℚ

/-- JS `Infinity`-initialised running minimum over a list (`none` when
the list is empty, i.e. the minimum stays `Infinity`). -/
def minOfList : List ℚ → Option ℚ
  | [] => none
  | a :: rest => some (rest.foldl min a)

/-- One evaluated candidate of the `chooseNewAnchorTarget` loop: the
jittered position, the (clamped) heat cell, and the score.  The score
is `⊤` exactly when `minDistMovers` stays `Infinity` (no other mover),
in which case the JS score is `Infinity` too; the comparison
`score > best.score` then keeps the first candidate, as `⊤ < ⊤` is
false. -/
structure AnchorCandidate where
  sx : ℚ
  sy : ℚ
  row : Fin HEAT_ROWS
  col : Fin HEAT_COLS
  score : WithTop ℚ

/-- The body of the candidate loop of `chooseNewAnchorTarget`
(movers.js:486-532).  `bias` is the role+episode anchor bias computed
before the loop; `others` is `moversList` minus the mover being
retargeted (the `other === m` skip); the heat lookup index is clamped
only to totalise the array access, which is in range for draws in
`[0,1)`. -/
def evalAnchorCandidate (J : JsMath) (cfg : Config) (heat : HeatMap)
    (bias mR limX limY : ℚ) (targets : List TargetScr) (others : List Mover)
    (d : AnchorDraw) : AnchorCandidate :=
  let c : Int := ⌊d.colU * (HEAT_COLS : ℚ)⌋
  let r : Int := ⌊d.rowU * (HEAT_ROWS : ℚ)⌋
  let col := clampToFin HEAT_COLS (by decide) c
  let row := clampToFin HEAT_ROWS (by decide) r
  let cellHeat := heat row col
  let cellW := limX * 2 / (HEAT_COLS : ℚ)
  let cellH := limY * 2 / (HEAT_ROWS : ℚ)
  let jitterX := (d.jxU - 1/2) * cellW * (8/10)
  let jitterY := (d.jyU - 1/2) * cellH * (8/10)
  let sx := -limX + ((c : ℚ) + 1/2) * cellW + jitterX
  let sy := -limY + ((r : ℚ) + 1/2) * cellH + jitterY
  let minDistMovers : Option ℚ :=
    minOfList (others.map (fun o => J.hypot (sx - o.anchorPosSx) (sy - o.anchorPosSy)))
  let minDistTg : Option ℚ :=
    minOfList (targets.map (fun tg => J.hypot (sx - tg.sx) (sy - tg.sy) - (tg.r + mR + 60)))
  let distCenter := J.hypot sx sy
  let invades : Bool := match minDistTg with
    | none => false
    | some dt => decide (dt < 0)
  let score : WithTop ℚ :=
    match minDistMovers with
    | none => ⊤
    | some dm =>
      some ((1 - cellHeat * (1/10))
        + dm / max limX limY * (12/10)
        + (if invades then -(5/2) else 0)
        + (if cfg.moversFlee then distCenter / max limX limY * (1/2) else 0)
        + distCenter / max limX limY * bias)
  { sx := sx, sy := sy, row := row, col := col, score := score }

/-- The `best` accumulation of the candidate loop: start at `null`,
replace whenever `score > best.score` (so the first candidate always
enters). -/
def bestAnchorCandidate (cands : List AnchorCandidate) : Option AnchorCandidate :=
  cands.foldl (fun b cand =>
    match b with
    | none => some cand
    | some bb => if bb.score < cand.score then some cand else bb) none

/-- movers.js `chooseNewAnchorTarget(m, t, limX, limY, liveTargetsScr,
moversList)` (lines 479-569): pick the best-scoring jittered candidate
(or the uniformly random 80%-of-bounds fallback when there are no
candidates), set the transition target, duration and per-axis velocity,
and bump the heat of the winning cell. -/
def chooseNewAnchorTarget (J : JsMath) (cfg : Config) (heat : HeatMap)
    (m : Mover) (t limX limY : ℚ) (targets : List TargetScr)
    (others : List Mover) (ad : AnchorDraws) : Mover × HeatMap :=
  let bias := (ROLES m.role).anchorBias + (EPISODES m.episode).anchorBias
  match bestAnchorCandidate
      (ad.cands.map (evalAnchorCandidate J cfg heat bias m.r limX limY targets others)) with
  | some best =>
    let prevX := m.anchorPosSx
    let prevY := m.anchorPosSy
    let dist0 := J.hypot (best.sx - prevX) (best.sy - prevY)
    let dist := if dist0 = 0 then 1 else dist0
    let macroSpeed := (EPISODES m.episode).macroSpeed
    let baseDur := randAt 2000 5000 ad.durU / macroSpeed
    let dur := baseDur + dist * (3/10)
    ({ m with
        anchorTargetSx := best.sx, anchorTargetSy := best.sy
        anchorMoveStart := t, anchorMoveDuration := dur, anchorMoveEnd := t + dur
        anchorVelSx := (best.sx - prevX) / dur
        anchorVelSy := (best.sy - prevY) / dur },
      bumpHeat heat (best.row, best.col) HEATMAP_INCREMENT)
  | none =>
    let sx := randAt (-limX * (8/10)) (limX * (8/10)) ad.fbU1
    let sy := randAt (-limY * (8/10)) (limY * (8/10)) ad.fbU2
    let prevX := m.anchorPosSx
    let prevY := m.anchorPosSy
    let dist0 := J.hypot (sx - prevX) (sy - prevY)
    let dist := if dist0 = 0 then 1 else dist0
    let baseDur := randAt 2000 5000 ad.durU
    let dur := baseDur + dist * (3/10)
    ({ m with
        anchorTargetSx := sx, anchorTargetSy := sy
        anchorMoveStart := t, anchorMoveDuration := dur, anchorMoveEnd := t + dur
        anchorVelSx := (sx - prevX) / dur
        anchorVelSy := (sy - prevY) / dur },
      heat)

/-! The micro-pattern chooser (movers.js:575-671). -/

/-- The random draws of one `chooseNewMicro` call: the pattern pick,
the tier pick (both pre-scaling uniforms), the duration and gain
draws, and the two lateral-side draws. -/
structure MicroRand where
  patternU : ℚ
  tierU : ℚ
  durU : ℚ
  gainU : ℚ
  sideReU : ℚ
  sideU : ℚ

/-- JS `MICRO_TIERS[i]` for an index already reduced mod 5. -/
def microTierAt (i : Int) : Tier :=
  MICRO_TIERS.getD i.toNat .S

/-- movers.js `chooseNewMicro(m, t)` (lines 575-671).  The local
`newTier` of line 585 is computed but never used by the source and is
not modelled; `m.microTierIndex == null` / `m.nonFigureCount == null`
never hold for movers built by `spawnMoverInWindow`. -/
def chooseNewMicro (m : Mover) (t : ℚ) (rnd : MicroRand) : Mover :=
  let idx := (m.microTierIndex + 1).emod 5
  let candidates :=
    if 3 ≤ m.nonFigureCount then
      MICRO_PATTERN_NAMES.filter (fun n => n.isFigure8Family)
    else MICRO_PATTERN_NAMES
  let w := fun p => (ROLES m.role).patternWeights p * (EPISODES m.episode).patternWeights p
  let chosenName := pickWeighted candidates w (rnd.patternU * totalWeight candidates w) .figure8
  let nextIndex := (idx + 1).emod 5
  let tierCandidates :=
    [microTierAt nextIndex, microTierAt ((nextIndex + 1).emod 5), microTierAt ((nextIndex + 2).emod 5)]
  let wT := fun tn => (ROLES m.role).tierWeights tn * (EPISODES m.episode).tierWeights tn
  let chosenTierName := pickWeighted tierCandidates wT (rnd.tierU * totalWeight tierCandidates wT) .S
  let baseDur := randAt MICRO_MIN_MS MICRO_MAX_MS rnd.durU
  { m with
    microPattern := chosenName
    microTier := chosenTierName
    microTierIndex := tierIndexOf chosenTierName
    microStart := t
    microDuration := baseDur
    microBlendStart := t
    microNextSwitch := t + baseDur
    microGain := randAt m.dnaMicroGainMin m.dnaMicroGainMax rnd.gainU
    nonFigureCount := if chosenName.isFigure8Family then 0 else m.nonFigureCount + 1
    fleeSide := if rnd.sideReU < 3/10 then (if rnd.sideU < 1/2 then 1 else -1) else m.fleeSide }

/-! The per-frame mover update (movers.js:1061-1447, the live top block
of `updateMovers`). -/

/-- Per-frame inputs shared by all movers: the `nowMs()` read, the
normalized dt, the player position, cos/sin of `state.rollAngle`, the
margin-reduced half-dimensions and the player speed handed in by
main.js. -/
structure FrameCtx where
  t : ℚ
  dtN : ℚ
  playerX : ℚ
  playerY : ℚ
  cosR : ℚ
  sinR : ℚ
  limX : ℚ
  limY : ℚ
  playerSpeed : ℚ

/-- The random draws one mover can consume during one `updateMovers`
iteration: the role/episode rotation draws, the anchor-retarget draws
of the two `chooseNewAnchorTarget` call sites, the `chooseNewMicro`
draws of its three call sites, and the feint draws. -/
structure FrameDraws where
  roleNew : RoleName
  roleExpU : ℚ
  microOnRole : MicroRand
  epNew : EpisodeName
  epExpU : ℚ
  anchorOnEp : AnchorDraws
  microOnEp : MicroRand
  anchorOnEnd : AnchorDraws
  microOnSwitch : MicroRand
  feintU : ℚ
  feintChoiceU : ℚ
  feintDurU : ℚ

/-- The heal block (movers.js:1113-1117): a live mover that has not
been hit for strictly more than `HEAL_INTERVAL_MS` has its hit count,
escape boost and last-hit mark cleared. -/
def healStage (tNow : ℚ) (m : Mover) : Mover :=
  if 0 < m.hits ∧ m.lastHitTime ≠ 0 ∧ HEAL_INTERVAL_MS < tNow - m.lastHitTime then
    { m with hits := 0, escapeBoost := 0, lastHitTime := 0 }
  else m

/-- The periodic role rotation (movers.js:1119-1128): on expiry take
the `pickRole()` result, draw a fresh expiry, force the (legacy) anchor
expiry and re-choose the micro pattern.  The count bookkeeping of
`pickRole` is modelled by `roleRotationCounts`. -/
def roleRotationStage (tNow : ℚ) (dr : FrameDraws) (m : Mover) : Mover :=
  if m.roleExpires < tNow then
    chooseNewMicro
      { m with
        role := dr.roleNew
        roleExpires := tNow + randAt 8000 16000 dr.roleExpU
        anchorExpires := tNow }
      tNow dr.microOnRole
  else m

/-- The periodic episode rotation (movers.js:1131-1140): on expiry take
the `pickEpisode()` result, draw a fresh expiry, force a new anchor
target and re-choose the micro pattern.  The count bookkeeping
(including the double increment of line 1135) is modelled by
`episodeRotationCounts`. -/
def episodeRotationStage (J : JsMath) (cfg : Config) (fr : FrameCtx)
    (targets : List TargetScr) (others : List Mover) (dr : FrameDraws)
    (heat : HeatMap) (m : Mover) : Mover × HeatMap :=
  if m.episodeExpires < fr.t then
    let mh := chooseNewAnchorTarget J cfg heat
      { m with
        episode := dr.epNew
        episodeExpires := fr.t + randAt 2000 6000 dr.epExpU }
      fr.t fr.limX fr.limY targets others dr.anchorOnEp
    (chooseNewMicro mh.1 fr.t dr.microOnEp, mh.2)
  else (m, heat)

/-- The linear anchor advance (movers.js:1153-1156):
`anchorPos += anchorVel * dtMs`, with no clamp against the bounds. -/
def anchorAdvanceStage (dtMs : ℚ) (m : Mover) : Mover :=
  { m with
    anchorPosSx := m.anchorPosSx + m.anchorVelSx * dtMs
    anchorPosSy := m.anchorPosSy + m.anchorVelSy * dtMs }

/-- The transition-complete retarget (movers.js:1158-1160): when
`tNow >= anchorMoveEnd`, choose a new anchor target (the anchor
position itself is not moved). -/
def anchorRetargetStage (J : JsMath) (cfg : Config) (fr : FrameCtx)
    (targets : List TargetScr) (others : List Mover) (ad : AnchorDraws)
    (heat : HeatMap) (m : Mover) : Mover × HeatMap :=
  if m.anchorMoveEnd ≤ fr.t then
    chooseNewAnchorTarget J cfg heat m fr.t fr.limX fr.limY targets others ad
  else (m, heat)

/-- The micro-pattern reswitch (movers.js:1162-1165). -/
def microReswitchStage (tNow : ℚ) (rnd : MicroRand) (m : Mover) : Mover :=
  if m.microNextSwitch < tNow then chooseNewMicro m tNow rnd else m

/-- The threat scalar (movers.js:1177-1182): only nonzero when flee
mode is on; grows as the mover nears the screen centre. -/
def threatAlphaOf (J : JsMath) (cfg : Config) (fr : FrameCtx) (m : Mover) : ℚ :=
  let scr := worldToScreen (m.x - fr.playerX) (m.y - fr.playerY) fr.cosR fr.sinR
  let distToCenter := J.hypot scr.1 scr.2
  let maxDist := min fr.limX fr.limY * (3/4)
  if cfg.moversFlee then max 0 (1 - distToCenter / maxDist) else 0

/-- The FM/AM modulation block (movers.js:1184-1191): ease `wCurrent`
toward the threat-scaled target frequency and set the effective micro
gain. -/
def modulationStage (J : JsMath) (tNow threatAlpha : ℚ) (m : Mover) : Mover :=
  let fm := 1 + (2/10) * J.sin (tNow * (4/10000) + m.fmPhase)
  let targetW := m.dnaWBase * fm * (1 + threatAlpha * (8/10))
  let m' : Mover := { m with wCurrent := m.wCurrent + (targetW - m.wCurrent) * (1/10) }
  let am := 1 + (2/10) * J.sin (tNow * (5/10000) + m'.amPhase)
  { m' with
    microGainEff :=
      some ((if m'.microGain = 0 then 1 else m'.microGain) * am * (1 + threatAlpha * (1/2))) }

/-- The threat-driven micro-duration shortening (movers.js:1194-1200). -/
def microShortenStage (tNow threatAlpha : ℚ) (m : Mover) : Mover :=
  let remaining := m.microNextSwitch - tNow
  let desiredRem :=
    (if m.microDuration = 0 then MICRO_MAX_MS else m.microDuration) * (1 - (1/2) * threatAlpha)
  if desiredRem < remaining then { m with microNextSwitch := tNow + desiredRem } else m

/-- The threat-driven anchor-transition shortening
(movers.js:1204-1218): recompute the per-axis velocity so the
transition finishes by the shortened deadline. -/
def anchorShortenStage (tNow threatAlpha : ℚ) (m : Mover) : Mover :=
  let rem := m.anchorMoveEnd - tNow
  let macroSpeed := (EPISODES m.episode).macroSpeed
  let desired := m.anchorMoveDuration * (1 - (3/10) * threatAlpha) / macroSpeed
  if desired < rem then
    { m with
      anchorVelSx := (m.anchorTargetSx - m.anchorPosSx) / desired
      anchorVelSy := (m.anchorTargetSy - m.anchorPosSy) / desired
      anchorMoveEnd := tNow + desired
      anchorMoveDuration := desired }
  else m

/-- The feint roll (movers.js:1221-1233): above the threat threshold,
with probability `feintChance * threat * 0.3`, one of an instant anchor
expiry, a phase flip or a zig-zag. -/
def feintStage (tNow threatAlpha : ℚ) (dr : FrameDraws) (m : Mover) : Mover :=
  if 45/100 < threatAlpha ∧
      dr.feintU < (if m.dnaFeintChance = 0 then 2/10 else m.dnaFeintChance) * threatAlpha * (3/10) then
    let choice : Int := ⌊dr.feintChoiceU * 3⌋
    if choice = 0 then { m with anchorExpires := tNow }
    else if choice = 1 then { m with phaseFlipUntil := tNow + randAt 200 500 dr.feintDurU }
    else { m with zigZagUntil := tNow + randAt 250 600 dr.feintDurU }
  else m

/-- The slow pattern-frame rotation (movers.js:1236-1238). -/
def frameAngleStage (dtMs : ℚ) (m : Mover) : Mover :=
  { m with frameAngle := m.frameAngle + m.frameRate * dtMs }

/-- One iteration of the per-mover loop of `updateMovers`
(movers.js:1108-1238) on a non-dead mover, as the composition of the
stages above in source order.  The count bookkeeping of the rotations
(lines 1121, 1132, 1135) is modelled by the category-count machine
below; the anchor-initialisation branch (lines 1145-1151) is dead
because `anchorTargetSx/Sy` are never null for spawned movers.  The
remainder of the loop body (lines 1239-1444: micro offset,
avoidance/flee forces, integration, wall containment and the
world-space write-back) writes only `x/y/vx/vy/prevOffset` and is
omitted: it never touches the hit state, the anchor state or the heat
map. -/
def updateMoverStep (J : JsMath) (cfg : Config) (fr : FrameCtx)
    (targets : List TargetScr) (others : List Mover) (dr : FrameDraws)
    (heat : HeatMap) (m : Mover) : Mover × HeatMap :=
  let tNow := fr.t
  let dtMs := fr.dtN * (166667/10000)
  let m2 := roleRotationStage tNow dr (healStage tNow m)
  let s1 := episodeRotationStage J cfg fr targets others dr heat m2
  let m4 := anchorAdvanceStage dtMs s1.1
  let s2 := anchorRetargetStage J cfg fr targets others dr.anchorOnEnd s1.2 m4
  let m6 := microReswitchStage tNow dr.microOnSwitch s2.1
  let threatAlpha := threatAlphaOf J cfg fr m6
  let m7 := modulationStage J tNow threatAlpha m6
  let m8 := microShortenStage tNow threatAlpha m7
  let m9 := anchorShortenStage tNow threatAlpha m8
  let m10 := feintStage tNow threatAlpha dr m9
  (frameAngleStage dtMs m10, s2.2)

/-- The live-mover occupancy pass over the heat map
(movers.js:1093-1101): each non-dead mover adds `0.2` heat to the cell
of its current anchor position. -/
def moverOccupancyBump (limX limY : ℚ) (heat : HeatMap) (ms : List Mover) : HeatMap :=
  ms.foldl (fun h mv =>
    if mv.dead then h
    else bumpHeat h (getCellForPos mv.anchorPosSx mv.anchorPosSy limX limY)
      (HEATMAP_INCREMENT * (2/10))) heat

/-- The per-mover loop of `updateMovers` (movers.js:1108-1445),
replaying the in-place mutation order: the movers before the cursor
have already been updated when a later mover's `chooseNewAnchorTarget`
reads their anchor positions; dead movers are skipped unchanged. -/
def updateMoversLoop (J : JsMath) (cfg : Config) (fr : FrameCtx)
    (targets : List TargetScr) (drs : Nat → FrameDraws) :
    List Mover → List Mover → HeatMap → Nat → List Mover × HeatMap
  | [], done, h, _ => (done, h)
  | m :: rest, done, h, i =>
    if m.dead then updateMoversLoop J cfg fr targets drs rest (done ++ [m]) h (i + 1)
    else
      let others := done ++ rest
      let mh := updateMoverStep J cfg fr targets others (drs i) h m
      updateMoversLoop J cfg fr targets drs rest (done ++ [mh.1]) mh.2 (i + 1)

/-- movers.js `updateMovers(dtN, playerSpeed)` (lines 1061-1447, the
live top block): reconcile the count, return early when disabled or
empty, dereference the canvas for the arena bounds (`TypeError` when it
is null), decay the heat map and add live-mover occupancy, then run the
per-mover loop. -/
def updateMovers (J : JsMath) (cfg : Config) (canvas : Option Canvas)
    (t dtN playerX playerY cosR sinR playerSpeed : ℚ)
    (sps : Nat → SpawnParams) (drs : Nat → FrameDraws)
    (targets : List TargetScr) (heat : HeatMap) (movers : List Mover) :
    Except JsError (List Mover × HeatMap) :=
  match ensureMoversCount J cfg canvas playerX playerY cosR sinR t sps movers with
  | .error e => .error e
  | .ok ms =>
    if cfg.moversEnabled = false ∨ ms.length = 0 then .ok (ms, heat)
    else
      match canvas with
      | none => .error .typeError
      | some cv =>
        let limX := cv.width / 2 - MARGIN
        let limY := cv.height / 2 - MARGIN
        let fr : FrameCtx :=
          { t := t, dtN := dtN, playerX := playerX, playerY := playerY
            cosR := cosR, sinR := sinR, limX := limX, limY := limY
            playerSpeed := playerSpeed }
        let heat1 := moverOccupancyBump limX limY (decayHeatMap heat) ms
        .ok (updateMoversLoop J cfg fr targets drs ms [] heat1 0)

/-! The capacity-bounded role/episode pools (movers.js:216-278 and the
count-adjustment sites at lines 1033-1036, 1119-1127 and 1131-1140).
The counts are module-level mutable maps in the source; here they are
explicit `RoleName → Int` / `EpisodeName → Int` states. -/

/-- The `let min = Infinity` scan of `pickRole`/`pickEpisode` that
keeps the first category with the strictly smallest count. -/
def firstMinAux (counts : α → Int) : List α → α → Int → α
  | [], best, _ => best
  | a :: rest, best, bestCnt =>
    if counts a < bestCnt then firstMinAux counts rest a (counts a)
    else firstMinAux counts rest best bestCnt

/-- Entry point of the minimum scan over the iteration order. -/
def firstMinCategory (counts : α → Int) (dflt : α) : List α → α
  | [] => dflt
  | a :: rest => firstMinAux counts rest a (counts a)

/-- The generic pick of `pickRole`/`pickEpisode` (movers.js:222-243 and
255-278): filter the categories (in object-iteration order) whose count
is below the cap; pick uniformly among them via
`Math.floor(u * candidates.length)` (in range for `u` in `[0,1)`,
totalised with the head); if none is below the cap, take the first
category with the strictly smallest count; then increment the chosen
count and return the choice. -/
def pickCategory [DecidableEq α] (order : List α) (dflt : α)
    (counts : α → Int) (u : ℚ) : α × (α → Int) :=
  let candidates := order.filter (fun a => counts a < CATEGORY_MAX_COUNT)
  let chosen :=
    if candidates.isEmpty then firstMinCategory counts dflt order
    else candidates.getD (⌊u * (candidates.length : ℚ)⌋).toNat (candidates.headD dflt)
  (chosen, fun a => if a = chosen then counts a + 1 else counts a)

/-- movers.js `pickEpisode()` (lines 222-243); the lazy zero
initialisation of `episodeCounts` is implicit in the total count
function. -/
def pickEpisode (counts : EpisodeName → Int) (u : ℚ) :
    EpisodeName × (EpisodeName → Int) :=
  pickCategory episodeOrder .Explore counts u

/-- movers.js `pickRole()` (lines 255-278). -/
def pickRole (counts : RoleName → Int) (u : ℚ) :
    RoleName × (RoleName → Int) :=
  pickCategory roleOrder .Runner counts u

/-- The `Math.max(0, count - 1)` decrement used at every rotation and
respawn site. -/
def decCount [DecidableEq α] (counts : α → Int) (a : α) : α → Int :=
  fun x => if x = a then max 0 (counts x - 1) else counts x

/-- The episode-rotation count effect of `updateMovers`
(movers.js:1131-1140): decrement the expired episode, draw a new one
with `pickEpisode` (which already increments its count), and then
increment the chosen count AGAIN (line 1135).  Returns the new episode
and the resulting counts. -/
def episodeRotationCounts (counts : EpisodeName → Int) (old : EpisodeName)
    (u : ℚ) : EpisodeName × (EpisodeName → Int) :=
  let counts1 := decCount counts old
  let pe := pickEpisode counts1 u
  (pe.1, fun x => if x = pe.1 then pe.2 x + 1 else pe.2 x)

/-- The role-rotation count effect of `updateMovers`
(movers.js:1119-1127): decrement the expired role and draw a new one
with `pickRole` (single increment, inside the pick). -/
def roleRotationCounts (counts : RoleName → Int) (old : RoleName)
    (u : ℚ) : RoleName × (RoleName → Int) :=
  let counts1 := decCount counts old
  pickRole counts1 u

/-- The count effect of one `respawnMover(m)` call
(movers.js:987-1053): `spawnMoverInWindow` picks a role and an episode
(each pick increments its count), then lines 1033-1036 decrement the
old role/episode and increment the new ones AGAIN. -/
def respawnMoverCounts (rc : RoleName → Int) (ec : EpisodeName → Int)
    (oldRole : RoleName) (oldEpisode : EpisodeName) (uR uE : ℚ) :
    (RoleName × EpisodeName) × (RoleName → Int) × (EpisodeName → Int) :=
  let pr := pickRole rc uR
  let pe := pickEpisode ec uE
  let rc1 := decCount pr.2 oldRole
  let rc2 := fun x => if x = pr.1 then rc1 x + 1 else rc1 x
  let ec1 := decCount pe.2 oldEpisode
  let ec2 := fun x => if x = pe.1 then ec1 x + 1 else ec1 x
  ((pr.1, pe.1), rc2, ec2)

/-! The micro-pattern library (movers.js:41-132).  The pattern bodies
use `Math.sin`, `Math.cos`, the float remainder `%` and `Math.pow`;
they are abstracted as the parameters `s`, `c`, `md` and `pw`, which
the claim theorems instantiate with `Real.sin`, `Real.cos`, the real
`fmod` and `Real.rpow`.  The carrier is kept generic over a linear
ordered field with decidable order so the definition stays executable;
the claim theorems use `K := ℝ`. -/

/-- The `opts` argument each pattern function receives
(movers.js:688-694): the (already gain-free) angular frequency `w`, the
two phase offsets, and the elapsed/duration pair in milliseconds. -/
structure PatParams (K : Type) where
  w : K
  phase1 : K
  phase2 : K
  elapsed : K
  duration : K

/-- The `MICRO_PATTERNS` dispatch table (movers.js:41-132):
`microPatternFn s c md pw p t gain opts` is `MICRO_PATTERNS[p](t, gain,
opts)` with `s/c/md/pw` standing for sin, cos, `%` and `Math.pow`. -/
def microPatternFn {K : Type} [LinearOrderedField K]
    [DecidableRel (LT.lt (α := K))] (s c : K → K) (md pw : K → K → K) :
    PatternName → K → K → PatParams K → K × K
  | .figure8, t, gain, opts =>
    let w := opts.w * gain
    (s (w * t + opts.phase1), s (w * 2 * t + opts.phase2))
  | .figure8Wide, t, gain, opts =>
    let w := opts.w * gain
    (s (w * t + opts.phase1), s (w * (14/10) * t + opts.phase2) * (8/10))
  | .figure8Spiral, t, gain, opts =>
    let w := opts.w * gain
    let cycle := if 0 < opts.duration then opts.elapsed / opts.duration else 0
    let scale := 3/10 + 7/10 * cycle
    (s (w * t + opts.phase1) * scale, s (w * 2 * t + opts.phase2) * scale)
  | .spiral, t, gain, opts =>
    let w := opts.w * gain
    let cycle := if 0 < opts.duration then md opts.elapsed opts.duration / opts.duration else 0
    let r := pw cycle (9/10)
    let a := w * t + opts.phase1
    (c a * r, s a * r)
  | .spiralBurst, t, gain, opts =>
    let w := opts.w * gain
    let cycles : K := 3
    let cycle := if 0 < opts.duration then md opts.elapsed opts.duration / opts.duration else 0
    let sub := md (cycle * cycles) 1
    let r := pw sub (7/10)
    let a := w * t + opts.phase1
    (c a * r, s a * r)
  | .rosette, t, gain, opts =>
    let w := opts.w * gain
    let k : K := 37/10
    let a : K := 35/100
    let angle1 := w * t + opts.phase1
    let angle2 := k * w * t + opts.phase2
    (c angle1 + a * c angle2, s angle1 - a * s angle2)
  | .swerveStop, t, gain, opts =>
    let w := opts.w * gain
    let cycle := if 0 < opts.duration then md opts.elapsed opts.duration / opts.duration else 0
    if cycle < 35/100 then (0, 0)
    else
      let p := (cycle - 35/100) / (65/100)
      let a := w * t * (12/10)
      let ease := p * p * (3 - 2 * p)
      (c a * ease, s a * (1/2) * ease)

/-- The tier-scaling amplitudes of `computeMicroOffset`
(movers.js:709-718): spiral-family patterns scale both axes by
`SPIRAL_SCALE[tier] * min(limX, limY)`; everything else per-axis by
`TIER_SCALE[tier] * limX/limY`. -/
def microAmp {K : Type} [LinearOrderedField K] (p : PatternName)
    (tier : Tier) (limX limY : K) : K × K :=
  if p.includesSpiral then
    let base := ((SPIRAL_SCALE tier : ℚ) : K) * min limX limY
    (base, base)
  else
    (((TIER_SCALE tier : ℚ) : K) * limX, ((TIER_SCALE tier : ℚ) : K) * limY)

/-! Concrete fixtures used by the closed witnesses and counterexamples. -/

/-- A concrete `JsMath` instance; its values are irrelevant to every
property proved below. -/
def J0 : JsMath := { hypot := fun _ _ => 0, sin := fun _ => 0, cos := fun _ => 0 }

/-- The default movers configuration of config.js `CFG` (the modelled
fields, with their config.js initial values). -/
def cfg0 : Config :=
  { moversEnabled := true, moversCount := 3, regenOnHit := true
    moversFlee := false, moversHit1Boost := 2/5, moversHit2Boost := 3/5
    moversSpeed := 1, moversAvoid := 1, moversR := 14 }

/-- The default configuration with `regenOnHit` off. -/
def cfg0dead : Config := { cfg0 with regenOnHit := false }

/-- The default configuration with movers disabled. -/
def cfg0disabled : Config := { cfg0 with moversEnabled := false }

/-- All-zero spawn draws with role Runner / episode Explore. -/
def sp0 : SpawnParams :=
  { posDraws := [], dirU1 := 0, dirU2 := 0
    roleChoice := .Runner, episodeChoice := .Explore
    wBaseU := 0, gainMinU := 0, gainMaxU := 0, feintU := 0, microGainU := 0
    patternU := 0, tierU := 0, p1Draw := 0, p2Draw := 0
    microDurU := 0, microNextU := 0, roleExpU := 0, epExpU := 0
    frameAngleDraw := 0, frameRateU := 0, amPhaseDraw := 0, fmPhaseDraw := 0
    fleeSideU := 0 }

/-- A 1280x720 canvas (limX = 500, limY = 220 after the margin). -/
def cv0 : Canvas := { width := 1280, height := 720 }

/-- All-zero micro draws. -/
def mr0 : MicroRand :=
  { patternU := 0, tierU := 0, durU := 0, gainU := 0, sideReU := 1, sideU := 0 }

/-- Empty anchor candidate draws (exercising the fallback branch). -/
def ad0 : AnchorDraws := { cands := [], fbU1 := 0, fbU2 := 0, durU := 0 }

/-- Per-frame draws that keep every probabilistic branch quiet. -/
def dr0 : FrameDraws :=
  { roleNew := .Runner, roleExpU := 0, microOnRole := mr0
    epNew := .Explore, epExpU := 0, anchorOnEp := ad0, microOnEp := mr0
    anchorOnEnd := ad0, microOnSwitch := mr0
    feintU := 1, feintChoiceU := 0, feintDurU := 0 }

/-- The all-cold heat map. -/
def heat0 : HeatMap := fun _ _ => 0

/-- A live mover that took one registered hit at `t = 1000`, with every
scheduled deadline far in the future so only the heal check is
exercised. -/
def mvHeal : Mover :=
  { x := 0, y := 0, vx := 0, vy := 0, r := 14, t0 := 0, p1 := 0, p2 := 0
    hitUntil := 0, hits := 1, escapeBoost := 2/5, lastHitTime := 1000
    dead := false, deadStart := 0
    anchorSx := 0, anchorSy := 0, anchorExpires := 0
    microPattern := .figure8, microTier := .S, microTierIndex := 0
    microStart := 0, microDuration := 3000, microBlendStart := 0
    microNextSwitch := 1000000, prevOffsetX := 0, prevOffsetY := 0
    microGain := 1, microGainEff := none, nonFigureCount := 0, fleeSide := 1
    role := .Runner, roleExpires := 1000000
    episode := .Explore, episodeExpires := 1000000
    dnaWBase := 1, dnaMicroGainMin := 1, dnaMicroGainMax := 1, dnaFeintChance := 1/5
    wCurrent := 1
    anchorPosSx := 0, anchorPosSy := 0, anchorTargetSx := 0, anchorTargetSy := 0
    anchorVelSx := 0, anchorVelSy := 0
    anchorMoveStart := 0, anchorMoveDuration := 3000, anchorMoveEnd := 1000000
    frameAngle := 0, frameRate := 0, amPhase := 0, fmPhase := 0
    phaseFlipUntil := 0, zigZagUntil := 0 }

/-- The frame context of the heal-boundary check: `nowMs` reads 5000,
exactly `HEAL_INTERVAL_MS` after the hit recorded in `mvHeal`. -/
def frHeal : FrameCtx :=
  { t := 5000, dtN := 1, playerX := 0, playerY := 0, cosR := 1, sinR := 0
    limX := 500, limY := 220, playerSpeed := 0 }

/-- A live mover 3 px short of its anchor target right at the
transition deadline of a 2000 ms, 987.5 px transition (per-axis
velocity `987.5/2000 = 0.49375` px/ms), inside a 1280x720 arena
(`limX = 500`). -/
def mvOvershoot : Mover :=
  { mvHeal with
    hits := 0, escapeBoost := 0, lastHitTime := 0
    anchorPosSx := 490, anchorPosSy := 0
    anchorVelSx := 79/160, anchorVelSy := 0
    anchorTargetSx := 1975/4, anchorTargetSy := 0
    anchorMoveStart := 98000, anchorMoveDuration := 2000, anchorMoveEnd := 100000 }

/-- The frame context of the overshoot counterexample: one slow frame
(`dtN = 3`, the clamp maximum of main.js:197) arriving at the
transition deadline. -/
def frOvershoot : FrameCtx :=
  { t := 100000, dtN := 3, playerX := 0, playerY := 0, cosR := 1, sinR := 0
    limX := 500, limY := 220, playerSpeed := 0 }

/-! Helper lemmas about field preservation, shared by several claim
proofs. -/

/-- A freshly spawned mover carries zero hit state. -/
lemma spawn_hits (J cfg cv px py cR sR t sp) :
    (spawnMoverInWindow J cfg cv px py cR sR t sp).hits = 0 := rfl

/-- A freshly spawned mover carries zero escape boost. -/
lemma spawn_escapeBoost (J cfg cv px py cR sR t sp) :
    (spawnMoverInWindow J cfg cv px py cR sR t sp).escapeBoost = 0 := rfl

/-- A respawned mover carries zero hit state. -/
lemma respawn_hits (J cfg cv px py cR sR t sp m) :
    (respawnMover J cfg cv px py cR sR t sp m).hits = 0 := rfl

/-- A respawned mover carries zero escape boost. -/
lemma respawn_escapeBoost (J cfg cv px py cR sR t sp m) :
    (respawnMover J cfg cv px py cR sR t sp m).escapeBoost = 0 := rfl

/-- A respawned mover is alive. -/
lemma respawn_dead (J cfg cv px py cR sR t sp m) :
    (respawnMover J cfg cv px py cR sR t sp m).dead = false := rfl

/-- `chooseNewMicro` never touches the hit count. -/
lemma chooseNewMicro_hits (m : Mover) (t : ℚ) (rnd : MicroRand) :
    (chooseNewMicro m t rnd).hits = m.hits := rfl

/-- `chooseNewMicro` never touches the escape boost. -/
lemma chooseNewMicro_escapeBoost (m : Mover) (t : ℚ) (rnd : MicroRand) :
    (chooseNewMicro m t rnd).escapeBoost = m.escapeBoost := rfl

/-- `chooseNewAnchorTarget` never touches the hit count. -/
lemma chooseNewAnchorTarget_hits (J cfg heat m t lX lY tg oth ad) :
    (chooseNewAnchorTarget J cfg heat m t lX lY tg oth ad).1.hits = m.hits := by
  unfold chooseNewAnchorTarget
  dsimp only
  split <;> rfl

/-- `chooseNewAnchorTarget` never touches the escape boost. -/
lemma chooseNewAnchorTarget_escapeBoost (J cfg heat m t lX lY tg oth ad) :
    (chooseNewAnchorTarget J cfg heat m t lX lY tg oth ad).1.escapeBoost = m.escapeBoost := by
  unfold chooseNewAnchorTarget
  dsimp only
  split <;> rfl

/-- The role rotation never touches the hit count. -/
lemma roleRotationStage_hits (tNow : ℚ) (dr : FrameDraws) (m : Mover) :
    (roleRotationStage tNow dr m).hits = m.hits := by
  unfold roleRotationStage; split <;> simp [chooseNewMicro_hits]

/-- The role rotation never touches the escape boost. -/
lemma roleRotationStage_escapeBoost (tNow : ℚ) (dr : FrameDraws) (m : Mover) :
    (roleRotationStage tNow dr m).escapeBoost = m.escapeBoost := by
  unfold roleRotationStage; split <;> simp [chooseNewMicro_escapeBoost]

/-- The episode rotation never touches the hit count. -/
lemma episodeRotationStage_hits (J cfg fr tg oth dr heat m) :
    (episodeRotationStage J cfg fr tg oth dr heat m).1.hits = m.hits := by
  unfold episodeRotationStage
  split <;> simp [chooseNewMicro_hits, chooseNewAnchorTarget_hits]

/-- The episode rotation never touches the escape boost. -/
lemma episodeRotationStage_escapeBoost (J cfg fr tg oth dr heat m) :
    (episodeRotationStage J cfg fr tg oth dr heat m).1.escapeBoost = m.escapeBoost := by
  unfold episodeRotationStage
  split <;> simp [chooseNewMicro_escapeBoost, chooseNewAnchorTarget_escapeBoost]

/-- The anchor retarget never touches the hit count. -/
lemma anchorRetargetStage_hits (J cfg fr tg oth ad heat m) :
    (anchorRetargetStage J cfg fr tg oth ad heat m).1.hits = m.hits := by
  unfold anchorRetargetStage
  split
  · exact chooseNewAnchorTarget_hits ..
  · rfl

/-- The anchor retarget never touches the escape boost. -/
lemma anchorRetargetStage_escapeBoost (J cfg fr tg oth ad heat m) :
    (anchorRetargetStage J cfg fr tg oth ad heat m).1.escapeBoost = m.escapeBoost := by
  unfold anchorRetargetStage
  split
  · exact chooseNewAnchorTarget_escapeBoost ..
  · rfl

/-- The micro reswitch never touches the hit count. -/
lemma microReswitchStage_hits (tNow rnd m) :
    (microReswitchStage tNow rnd m).hits = m.hits := by
  unfold microReswitchStage; split <;> rfl

/-- The micro reswitch never touches the escape boost. -/
lemma microReswitchStage_escapeBoost (tNow rnd m) :
    (microReswitchStage tNow rnd m).escapeBoost = m.escapeBoost := by
  unfold microReswitchStage; split <;> rfl

/-- The micro shortening never touches the hit count. -/
lemma microShortenStage_hits (tNow a m) :
    (microShortenStage tNow a m).hits = m.hits := by
  unfold microShortenStage; dsimp only; split <;> split <;> rfl

/-- The micro shortening never touches the escape boost. -/
lemma microShortenStage_escapeBoost (tNow a m) :
    (microShortenStage tNow a m).escapeBoost = m.escapeBoost := by
  unfold microShortenStage; dsimp only; split <;> split <;> rfl

/-- The anchor shortening never touches the hit count. -/
lemma anchorShortenStage_hits (tNow a m) :
    (anchorShortenStage tNow a m).hits = m.hits := by
  unfold anchorShortenStage; dsimp only; split <;> rfl

/-- The anchor shortening never touches the escape boost. -/
lemma anchorShortenStage_escapeBoost (tNow a m) :
    (anchorShortenStage tNow a m).escapeBoost = m.escapeBoost := by
  unfold anchorShortenStage; dsimp only; split <;> rfl

/-- The FM/AM modulation never touches the hit count. -/
lemma modulationStage_hits (J tNow a m) :
    (modulationStage J tNow a m).hits = m.hits := rfl

/-- The FM/AM modulation never touches the escape boost. -/
lemma modulationStage_escapeBoost (J tNow a m) :
    (modulationStage J tNow a m).escapeBoost = m.escapeBoost := rfl

/-- The feint roll never touches the hit count. -/
lemma feintStage_hits (tNow a dr m) :
    (feintStage tNow a dr m).hits = m.hits := by
  unfold feintStage; dsimp only
  split <;> split <;>
    first
    | rfl
    | (split <;> first
        | rfl
        | (split <;> rfl))

/-- The feint roll never touches the escape boost. -/
lemma feintStage_escapeBoost (tNow a dr m) :
    (feintStage tNow a dr m).escapeBoost = m.escapeBoost := by
  unfold feintStage; dsimp only
  split <;> split <;>
    first
    | rfl
    | (split <;> first
        | rfl
        | (split <;> rfl))

/-- The linear advance never touches the hit count. -/
lemma anchorAdvanceStage_hits (dtMs m) :
    (anchorAdvanceStage dtMs m).hits = m.hits := rfl

/-- The linear advance never touches the escape boost. -/
lemma anchorAdvanceStage_escapeBoost (dtMs m) :
    (anchorAdvanceStage dtMs m).escapeBoost = m.escapeBoost := rfl

/-- The frame-angle advance never touches the hit count. -/
lemma frameAngleStage_hits (dtMs m) :
    (frameAngleStage dtMs m).hits = m.hits := rfl

/-- The frame-angle advance never touches the escape boost. -/
lemma frameAngleStage_escapeBoost (dtMs m) :
    (frameAngleStage dtMs m).escapeBoost = m.escapeBoost := rfl

/-- Across one full per-mover update, the hit count is exactly what the
heal block leaves. -/
lemma updateMoverStep_hits_eq (J cfg fr tg oth dr heat m) :
    (updateMoverStep J cfg fr tg oth dr heat m).1.hits = (healStage fr.t m).hits := by
  unfold updateMoverStep
  simp only [frameAngleStage_hits, feintStage_hits, anchorShortenStage_hits,
    microShortenStage_hits, modulationStage_hits, microReswitchStage_hits,
    anchorRetargetStage_hits, anchorAdvanceStage_hits, episodeRotationStage_hits,
    roleRotationStage_hits, chooseNewMicro_hits]

/-- Across one full per-mover update, the escape boost is exactly what
the heal block leaves. -/
lemma updateMoverStep_escapeBoost_eq (J cfg fr tg oth dr heat m) :
    (updateMoverStep J cfg fr tg oth dr heat m).1.escapeBoost
      = (healStage fr.t m).escapeBoost := by
  unfold updateMoverStep
  simp only [frameAngleStage_escapeBoost, feintStage_escapeBoost,
    anchorShortenStage_escapeBoost, microShortenStage_escapeBoost,
    modulationStage_escapeBoost, microReswitchStage_escapeBoost,
    anchorRetargetStage_escapeBoost, anchorAdvanceStage_escapeBoost,
    episodeRotationStage_escapeBoost,
    roleRotationStage_escapeBoost, chooseNewMicro_escapeBoost]

/-! Anchor-position tracking lemmas: within one update step the anchor
position is written only by the linear advance, so when the episode
rotation does not fire the post-step position is the input position
plus velocity times `dtMs`. -/

/-- `chooseNewAnchorTarget` moves the target, not the position. -/
lemma chooseNewAnchorTarget_anchorPosSx (J cfg heat m t lX lY tg oth ad) :
    (chooseNewAnchorTarget J cfg heat m t lX lY tg oth ad).1.anchorPosSx
      = m.anchorPosSx := by
  unfold chooseNewAnchorTarget; dsimp only; split <;> rfl

/-- `chooseNewMicro` never touches the anchor position. -/
lemma chooseNewMicro_anchorPosSx (m t rnd) :
    (chooseNewMicro m t rnd).anchorPosSx = m.anchorPosSx := rfl

/-- `chooseNewMicro` never touches the episode expiry. -/
lemma chooseNewMicro_episodeExpires (m t rnd) :
    (chooseNewMicro m t rnd).episodeExpires = m.episodeExpires := rfl

/-- The heal never touches the anchor position. -/
lemma healStage_anchorPosSx (tNow m) :
    (healStage tNow m).anchorPosSx = m.anchorPosSx := by
  unfold healStage; split <;> rfl

/-- The heal never touches the anchor velocity. -/
lemma healStage_anchorVelSx (tNow m) :
    (healStage tNow m).anchorVelSx = m.anchorVelSx := by
  unfold healStage; split <;> rfl

/-- The heal never touches the episode expiry. -/
lemma healStage_episodeExpires (tNow m) :
    (healStage tNow m).episodeExpires = m.episodeExpires := by
  unfold healStage; split <;> rfl

/-- The role rotation never touches the anchor position. -/
lemma roleRotationStage_anchorPosSx (tNow dr m) :
    (roleRotationStage tNow dr m).anchorPosSx = m.anchorPosSx := by
  unfold roleRotationStage; split <;> rfl

/-- The role rotation never touches the anchor velocity. -/
lemma roleRotationStage_anchorVelSx (tNow dr m) :
    (roleRotationStage tNow dr m).anchorVelSx = m.anchorVelSx := by
  unfold roleRotationStage; split <;> rfl

/-- The role rotation never touches the episode expiry. -/
lemma roleRotationStage_episodeExpires (tNow dr m) :
    (roleRotationStage tNow dr m).episodeExpires = m.episodeExpires := by
  unfold roleRotationStage; split <;> rfl

/-- An unexpired episode leaves the rotation stage inert. -/
lemma episodeRotationStage_eq_of_ge (J cfg fr tg oth dr heat m)
    (h : ¬ m.episodeExpires < fr.t) :
    episodeRotationStage J cfg fr tg oth dr heat m = (m, heat) := by
  unfold episodeRotationStage; rw [if_neg h]

/-- The advance is exactly `anchorPos += anchorVel * dtMs`. -/
lemma anchorAdvanceStage_anchorPosSx (dtMs m) :
    (anchorAdvanceStage dtMs m).anchorPosSx
      = m.anchorPosSx + m.anchorVelSx * dtMs := rfl

/-- The retarget never touches the anchor position. -/
lemma anchorRetargetStage_anchorPosSx (J cfg fr tg oth ad heat m) :
    (anchorRetargetStage J cfg fr tg oth ad heat m).1.anchorPosSx
      = m.anchorPosSx := by
  unfold anchorRetargetStage
  split
  · exact chooseNewAnchorTarget_anchorPosSx ..
  · rfl

/-- The micro reswitch never touches the anchor position. -/
lemma microReswitchStage_anchorPosSx (tNow rnd m) :
    (microReswitchStage tNow rnd m).anchorPosSx = m.anchorPosSx := by
  unfold microReswitchStage; split <;> rfl

/-- The FM/AM modulation never touches the anchor position. -/
lemma modulationStage_anchorPosSx (J tNow a m) :
    (modulationStage J tNow a m).anchorPosSx = m.anchorPosSx := rfl

/-- The micro shortening never touches the anchor position. -/
lemma microShortenStage_anchorPosSx (tNow a m) :
    (microShortenStage tNow a m).anchorPosSx = m.anchorPosSx := by
  unfold microShortenStage; dsimp only; split <;> split <;> rfl

/-- The anchor shortening rewrites the velocity and deadline, not the
position. -/
lemma anchorShortenStage_anchorPosSx (tNow a m) :
    (anchorShortenStage tNow a m).anchorPosSx = m.anchorPosSx := by
  unfold anchorShortenStage; dsimp only; split <;> rfl

/-- The feint roll never touches the anchor position. -/
lemma feintStage_anchorPosSx (tNow a dr m) :
    (feintStage tNow a dr m).anchorPosSx = m.anchorPosSx := by
  unfold feintStage; dsimp only
  split <;> split <;>
    first
    | rfl
    | (split <;> first
        | rfl
        | (split <;> rfl))

/-- The frame-angle advance never touches the anchor position. -/
lemma frameAngleStage_anchorPosSx (dtMs m) :
    (frameAngleStage dtMs m).anchorPosSx = m.anchorPosSx := rfl

/-- When the episode rotation does not fire, the post-step anchor
position is exactly the unclamped linear advance of the input state. -/
lemma updateMoverStep_anchorPos_advance (J cfg fr tg oth dr heat m)
    (hep : ¬ m.episodeExpires < fr.t) :
    (updateMoverStep J cfg fr tg oth dr heat m).1.anchorPosSx
      = m.anchorPosSx + m.anchorVelSx * (fr.dtN * (166667/10000)) := by
  have hep2 : ¬ (roleRotationStage fr.t dr (healStage fr.t m)).episodeExpires < fr.t := by
    rw [roleRotationStage_episodeExpires, healStage_episodeExpires]; exact hep
  unfold updateMoverStep
  simp only [episodeRotationStage_eq_of_ge J cfg fr tg oth dr heat _ hep2]
  simp only [frameAngleStage_anchorPosSx, feintStage_anchorPosSx,
    anchorShortenStage_anchorPosSx, microShortenStage_anchorPosSx,
    modulationStage_anchorPosSx, microReswitchStage_anchorPosSx,
    anchorRetargetStage_anchorPosSx, anchorAdvanceStage_anchorPosSx,
    roleRotationStage_anchorPosSx, roleRotationStage_anchorVelSx,
    healStage_anchorPosSx, healStage_anchorVelSx]

/-! Claim theorems. -/

/-- C10: the hit test returns the no-hit result `-1` whenever movers
are disabled in the configuration or the mover collection is empty,
regardless of any mover or player positions. -/
theorem hitTest_disabled_or_empty (J : JsMath) (cfg : Config) (px py : ℚ)
    (movers : List Mover)
    (h : cfg.moversEnabled = false ∨ movers.length = 0) :
    hitTestMovers J cfg px py movers = -1 := by
  unfold hitTestMovers
  rw [if_pos h]

/-- Witness for the C10 theorem: a disabled configuration with a
nonempty collection, and an enabled configuration with the empty
collection. -/
theorem hitTest_disabled_or_empty_witness :
    hitTestMovers J0 cfg0disabled 0 0 [mvHeal] = -1
    ∧ hitTestMovers J0 cfg0 0 0 [] = -1 :=
  ⟨hitTest_disabled_or_empty J0 cfg0disabled 0 0 [mvHeal] (Or.inl rfl),
   hitTest_disabled_or_empty J0 cfg0 0 0 [] (Or.inr rfl)⟩

/-- C9: calling the per-frame update while movers are disabled in the
configuration empties the mover collection (discarding all per-mover
state) before returning, for any prior collection contents. -/
theorem update_disabled_empties (J : JsMath) (cfg : Config)
    (canvas : Option Canvas) (t dtN px py cR sR pS : ℚ)
    (sps : Nat → SpawnParams) (drs : Nat → FrameDraws)
    (targets : List TargetScr) (heat : HeatMap) (movers : List Mover)
    (h : cfg.moversEnabled = false) :
    updateMovers J cfg canvas t dtN px py cR sR pS sps drs targets heat movers
      = .ok ([], heat) := by
  unfold updateMovers ensureMoversCount
  simp [h]

/-- Witness for the C9 theorem at the disabled default configuration
with a nonempty prior collection. -/
theorem update_disabled_empties_witness :
    updateMovers J0 cfg0disabled none 0 1 0 0 1 0 0 (fun _ => sp0) (fun _ => dr0)
        [] heat0 [mvHeal] = .ok ([], heat0) :=
  update_disabled_empties J0 cfg0disabled none 0 1 0 0 1 0 0 (fun _ => sp0)
    (fun _ => dr0) [] heat0 [mvHeal] rfl

/-- C8 counterexample: with the canvas unavailable, movers enabled and
the collection smaller than the configured count, the
count-reconciliation raises a `TypeError` (the null `state.canvas`
dereference inside `spawnMoverInWindow`, movers.js:812-813) instead of
returning normally with state unchanged. -/
theorem ensureCount_no_canvas_cex :
    ensureMoversCount J0 cfg0 none 0 0 1 0 1000 (fun _ => sp0) []
      = .error .typeError := rfl

/-- C8 amended: with the canvas unavailable, the operations no-op only
on the paths that never read it: when movers are disabled (or the
clamped count is 0) both return normally after emptying the
collection; when the collection already has the configured size,
`ensureMoversCount` returns it unchanged but `updateMovers` fails with
a `TypeError`; when the collection must grow, both fail with a
`TypeError`. -/
theorem moversUpdate_no_canvas (J : JsMath) (cfg : Config)
    (t dtN px py cR sR pS : ℚ) (sps : Nat → SpawnParams)
    (drs : Nat → FrameDraws) (targets : List TargetScr) (heat : HeatMap)
    (movers : List Mover) :
    (cfg.moversEnabled = false →
      ensureMoversCount J cfg none px py cR sR t sps movers = .ok []
      ∧ updateMovers J cfg none t dtN px py cR sR pS sps drs targets heat movers
          = .ok ([], heat))
    ∧ (cfg.moversEnabled = true → 0 < clampInt cfg.moversCount 0 5 →
        movers.length < (clampInt cfg.moversCount 0 5).toNat →
        ensureMoversCount J cfg none px py cR sR t sps movers = .error .typeError)
    ∧ (cfg.moversEnabled = true → 0 < clampInt cfg.moversCount 0 5 →
        (clampInt cfg.moversCount 0 5).toNat ≤ movers.length →
        ensureMoversCount J cfg none px py cR sR t sps movers
            = .ok (movers.take (clampInt cfg.moversCount 0 5).toNat)
        ∧ updateMovers J cfg none t dtN px py cR sR pS sps drs targets heat movers
            = .error .typeError) := by
  refine ⟨fun h => ⟨?_, ?_⟩, fun he hn hlt => ?_, fun he hn hge => ⟨?_, ?_⟩⟩
  · unfold ensureMoversCount; simp [h]
  · unfold updateMovers ensureMoversCount; simp [h]
  · unfold ensureMoversCount
    rw [he]; simp only [reduceIte]
    rw [if_neg (by omega : ¬ clampInt cfg.moversCount 0 5 = 0), if_pos hlt]
  · unfold ensureMoversCount
    rw [he]; simp only [reduceIte]
    rw [if_neg (by omega : ¬ clampInt cfg.moversCount 0 5 = 0),
      if_neg (by omega : ¬ movers.length < (clampInt cfg.moversCount 0 5).toNat)]
  · unfold updateMovers ensureMoversCount
    rw [he]; simp only [reduceIte]
    rw [if_neg (by omega : ¬ clampInt cfg.moversCount 0 5 = 0),
      if_neg (by omega : ¬ movers.length < (clampInt cfg.moversCount 0 5).toNat)]
    have hlen : ¬ (movers.take (clampInt cfg.moversCount 0 5).toNat).length = 0 := by
      rw [List.length_take]; omega
    simp [hlen]
    refine ⟨hn, ?_⟩
    intro hnil
    rw [hnil] at hge
    simp at hge
    omega

/-- Witness for the C8 amended theorem: with the canvas unavailable,
growing the collection fails, and updating an exactly-sized enabled
collection fails. -/
theorem moversUpdate_no_canvas_witness :
    ensureMoversCount J0 cfg0 none 0 0 1 0 0 (fun _ => sp0) [] = .error .typeError
    ∧ updateMovers J0 cfg0 none 0 1 0 0 1 0 0 (fun _ => sp0) (fun _ => dr0)
        [] heat0 [mvHeal, mvHeal, mvHeal] = .error .typeError := by
  have h2 := moversUpdate_no_canvas J0 cfg0 0 1 0 0 1 0 0
    (fun _ => sp0) (fun _ => dr0) [] heat0 ([] : List Mover)
  have h3 := moversUpdate_no_canvas J0 cfg0 0 1 0 0 1 0 0
    (fun _ => sp0) (fun _ => dr0) [] heat0 [mvHeal, mvHeal, mvHeal]
  exact ⟨h2.2.1 rfl (by decide) (by decide),
    (h3.2.2 rfl (by decide) (by decide)).2⟩

/-- C2: after any registered hit the escape boost equals the
deterministic function of the resulting hit count defined by `shoot()`:
0 at 0 hits, the first-hit fraction at exactly 1 hit, and the SUM of
the first- and second-hit fractions at 2 or more hits, for arbitrary
configured fractions. -/
theorem escapeBoost_from_hits (J : JsMath) (cfg : Config) (cv : Canvas)
    (px py cR sR t : ℚ) (sp : SpawnParams) (m : Mover) :
    (registerHit J cfg cv px py cR sR t sp m).escapeBoost
      = escapeBoostFor cfg (registerHit J cfg cv px py cR sR t sp m).hits
    ∧ escapeBoostFor cfg 0 = 0
    ∧ escapeBoostFor cfg 1 = cfg.moversHit1Boost
    ∧ (∀ k : Int, 2 ≤ k →
        escapeBoostFor cfg k = cfg.moversHit1Boost + cfg.moversHit2Boost) := by
  refine ⟨?_, rfl, rfl, fun k hk => ?_⟩
  · unfold registerHit
    by_cases hfatal : MOVERS_MAX_HITS ≤ m.hits + 1
    · simp only [hfatal, if_true]
      by_cases hreg : cfg.regenOnHit = true
      · simp only [hreg, if_true, respawn_escapeBoost, respawn_hits]
        rfl
      · simp only [eq_false_of_ne_true hreg, if_false]
        unfold escapeBoostFor
        have h1 : ¬ (m.hits + 1 = 1) := by unfold MOVERS_MAX_HITS at hfatal; omega
        have h2 : (2:Int) ≤ m.hits + 1 := by unfold MOVERS_MAX_HITS at hfatal; omega
        have h3 : ¬ (MOVERS_MAX_HITS = 1) := by decide
        have h4 : (2:Int) ≤ MOVERS_MAX_HITS := by decide
        simp [h1, h2, h3, h4]
    · simp only [hfatal, if_false]
      rfl
  · unfold escapeBoostFor
    have h1 : ¬ (k = 1) := by omega
    simp [h1, hk]

/-- Witness for the C2 theorem: one registered hit on a fresh mover,
and the formula's three regimes, at the default 0.40/0.60 fractions
(the spec's example: sum 1.0 at 2 or more hits). -/
theorem escapeBoost_from_hits_witness :
    (registerHit J0 cfg0 cv0 0 0 1 0 1000 sp0 mvHeal).escapeBoost
      = escapeBoostFor cfg0 (registerHit J0 cfg0 cv0 0 0 1 0 1000 sp0 mvHeal).hits
    ∧ escapeBoostFor cfg0 2 = cfg0.moversHit1Boost + cfg0.moversHit2Boost
    ∧ cfg0.moversHit1Boost + cfg0.moversHit2Boost = 1 := by
  refine ⟨(escapeBoost_from_hits J0 cfg0 cv0 0 0 1 0 1000 sp0 mvHeal).1, ?_,
    by norm_num [cfg0]⟩
  exact (escapeBoost_from_hits J0 cfg0 cv0 0 0 1 0 1000 sp0 mvHeal).2.2.2 2 (by decide)

/-- C4 (code bug): after spawning a single mover (whose `pickEpisode`
correctly initialises the pool count to 1), one episode rotation
leaves the stored count of the newly drawn episode at 2 while exactly
one mover holds it: the rotation increments the count once inside
`pickEpisode` (movers.js:241) and once more at movers.js:1135, so the
counted pool no longer equals the actual number of holders. -/
theorem episodeCounts_drift_cex :
    (let p0 := pickEpisode (fun _ => 0) 0
     let rot := episodeRotationCounts p0.2 p0.1 0
     rot.2 rot.1 = 2 ∧ [rot.1].count rot.1 = 1 ∧ ((2:Int) ≠ 1)) := by
  simp only [pickEpisode, episodeRotationCounts, pickCategory, decCount,
    episodeOrder, CATEGORY_MAX_COUNT, firstMinCategory, firstMinAux,
    List.filter, List.getD, List.get?, zero_mul, Int.floor_zero]
  norm_num

/-- C3 (amended): across one per-mover update step the hit count never
increases (updates touch it only in the heal block), and whenever
STRICTLY more than `HEAL_INTERVAL_MS = 4000` ms have elapsed since a
recorded last hit, the step resets the hit count and escape boost to
exactly 0. -/
theorem updateStep_hits_monotone_heal (J : JsMath) (cfg : Config)
    (fr : FrameCtx) (targets : List TargetScr) (others : List Mover)
    (dr : FrameDraws) (heat : HeatMap) (m : Mover)
    (hpos : 0 ≤ m.hits) :
    (updateMoverStep J cfg fr targets others dr heat m).1.hits ≤ m.hits
    ∧ (0 < m.hits → m.lastHitTime ≠ 0 → HEAL_INTERVAL_MS < fr.t - m.lastHitTime →
        (updateMoverStep J cfg fr targets others dr heat m).1.hits = 0
        ∧ (updateMoverStep J cfg fr targets others dr heat m).1.escapeBoost = 0) := by
  constructor
  · rw [updateMoverStep_hits_eq]
    unfold healStage
    split
    · exact hpos
    · exact le_refl _
  · intro h1 h2 h3
    have hc : 0 < m.hits ∧ m.lastHitTime ≠ 0 ∧ HEAL_INTERVAL_MS < fr.t - m.lastHitTime :=
      ⟨h1, h2, h3⟩
    constructor
    · rw [updateMoverStep_hits_eq]
      unfold healStage
      rw [if_pos hc]
    · rw [updateMoverStep_escapeBoost_eq]
      unfold healStage
      rw [if_pos hc]

/-- Witness for the C3 theorem: the fixture mover one hit in, updated
4001 ms after the hit, heals to zero hits and zero boost. -/
theorem updateStep_hits_monotone_heal_witness :
    (updateMoverStep J0 cfg0
        { frHeal with t := 5001 } [] [] dr0 heat0 mvHeal).1.hits ≤ mvHeal.hits
    ∧ ((updateMoverStep J0 cfg0
          { frHeal with t := 5001 } [] [] dr0 heat0 mvHeal).1.hits = 0
      ∧ (updateMoverStep J0 cfg0
          { frHeal with t := 5001 } [] [] dr0 heat0 mvHeal).1.escapeBoost = 0) := by
  have h := updateStep_hits_monotone_heal J0 cfg0 { frHeal with t := 5001 }
    [] [] dr0 heat0 mvHeal (by norm_num [mvHeal])
  exact ⟨h.1, h.2 (by norm_num [mvHeal]) (by norm_num [mvHeal])
    (by norm_num [mvHeal, HEAL_INTERVAL_MS])⟩

/-- C3 counterexample: at an elapsed time of exactly 4000 ms (the claim
says "at least 4000 ms"), the heal does NOT fire — the source condition
`tNow - lastHitTime > HEAL_INTERVAL_MS` (movers.js:1113) is strict —
and the hit count stays 1. -/
theorem heal_boundary_cex :
    frHeal.t - mvHeal.lastHitTime = HEAL_INTERVAL_MS
    ∧ (updateMoverStep J0 cfg0 frHeal [] [] dr0 heat0 mvHeal).1.hits = 1
    ∧ mvHeal.dead = false := by
  refine ⟨by norm_num [frHeal, mvHeal, HEAL_INTERVAL_MS], ?_, rfl⟩
  rw [updateMoverStep_hits_eq]
  unfold healStage
  rw [if_neg (by norm_num [frHeal, mvHeal, HEAL_INTERVAL_MS])]
  rfl

/-- C5 counterexample: a mover whose anchor satisfies the containment
bound (|490| ≤ limX = 500) leaves it violated after one update step
(the advance has no clamp): with the 0.49375 px/ms velocity of a
2000 ms / 987.5 px transition and one slow frame (dtN = 3, the clamp
maximum of main.js:197) arriving at the transition deadline, the
anchor lands at 490 + 0.49375·50.0001 ≈ 514.69 > 500. -/
theorem anchor_overshoot_cex :
    |mvOvershoot.anchorPosSx| ≤ frOvershoot.limX
    ∧ frOvershoot.limX
        < (updateMoverStep J0 cfg0 frOvershoot [] [] dr0 heat0 mvOvershoot).1.anchorPosSx := by
  constructor
  · norm_num [mvOvershoot, mvHeal, frOvershoot]
  · rw [updateMoverStep_anchorPos_advance J0 cfg0 frOvershoot [] [] dr0 heat0 mvOvershoot
      (by norm_num [mvOvershoot, mvHeal, frOvershoot])]
    norm_num [mvOvershoot, mvHeal, frOvershoot]

/-- Membership property of the `best`-accumulating fold of the anchor
candidate loop. -/
lemma bestFold_mem :
    ∀ (l : List AnchorCandidate) (acc : Option AnchorCandidate) (b : AnchorCandidate),
      List.foldl (fun b cand =>
        match b with
        | none => some cand
        | some bb => if bb.score < cand.score then some cand else bb) acc l = some b →
      b ∈ l ∨ acc = some b := by
  intro l
  induction l with
  | nil => exact fun acc b h => Or.inr h
  | cons a rest ih =>
    intro acc b h
    rw [List.foldl_cons] at h
    rcases ih _ b h with hm | hacc
    · exact Or.inl (List.mem_cons_of_mem a hm)
    · cases acc with
      | none =>
        dsimp only at hacc
        exact Or.inl (by rw [← Option.some.inj hacc]; exact List.mem_cons_self a rest)
      | some bb =>
        dsimp only at hacc
        by_cases hlt : bb.score < a.score
        · rw [if_pos hlt] at hacc
          exact Or.inl (by rw [← Option.some.inj hacc]; exact List.mem_cons_self a rest)
        · rw [if_neg hlt] at hacc
          exact Or.inr hacc

/-- The winning candidate of the anchor loop is one of the candidates. -/
lemma bestAnchorCandidate_mem (l : List AnchorCandidate) (b : AnchorCandidate)
    (h : bestAnchorCandidate l = some b) : b ∈ l := by
  unfold bestAnchorCandidate at h
  rcases bestFold_mem l none b h with hm | hacc
  · exact hm
  · exact absurd hacc (by simp)

/-- Every candidate position examined by the anchor loop lies strictly
inside the margin-reduced bounds (cell centres, c in 0..15 and r in
0..8, plus at most 40% of a cell of jitter). -/
lemma evalAnchorCandidate_inBounds (J : JsMath) (cfg : Config) (heat : HeatMap)
    (bias mR limX limY : ℚ) (targets : List TargetScr) (others : List Mover)
    (d : AnchorDraw) (hx : 0 < limX) (hy : 0 < limY)
    (hd : 0 ≤ d.colU ∧ d.colU < 1 ∧ 0 ≤ d.rowU ∧ d.rowU < 1
          ∧ 0 ≤ d.jxU ∧ d.jxU ≤ 1 ∧ 0 ≤ d.jyU ∧ d.jyU ≤ 1) :
    |(evalAnchorCandidate J cfg heat bias mR limX limY targets others d).sx| ≤ limX
    ∧ |(evalAnchorCandidate J cfg heat bias mR limX limY targets others d).sy| ≤ limY := by
  obtain ⟨hc0, hc1, hr0, hr1, hjx0, hjx1, hjy0, hjy1⟩ := hd
  have h16 : ((HEAT_COLS : ℕ) : ℚ) = 16 := by norm_num [HEAT_COLS]
  have h9 : ((HEAT_ROWS : ℕ) : ℚ) = 9 := by norm_num [HEAT_ROWS]
  unfold evalAnchorCandidate
  dsimp only
  rw [h16, h9]
  have hcf0 : (0:ℤ) ≤ ⌊d.colU * (16:ℚ)⌋ := Int.le_floor.mpr (by push_cast; nlinarith)
  have hcf1 : ⌊d.colU * (16:ℚ)⌋ ≤ 15 := by
    have hlt : ⌊d.colU * (16:ℚ)⌋ < 16 := Int.floor_lt.mpr (by push_cast; nlinarith)
    omega
  have hrf0 : (0:ℤ) ≤ ⌊d.rowU * (9:ℚ)⌋ := Int.le_floor.mpr (by push_cast; nlinarith)
  have hrf1 : ⌊d.rowU * (9:ℚ)⌋ ≤ 8 := by
    have hlt : ⌊d.rowU * (9:ℚ)⌋ < 9 := Int.floor_lt.mpr (by push_cast; nlinarith)
    omega
  have hq0 : (0:ℚ) ≤ ((⌊d.colU * (16:ℚ)⌋ : ℤ) : ℚ) := by exact_mod_cast hcf0
  have hq1 : ((⌊d.colU * (16:ℚ)⌋ : ℤ) : ℚ) ≤ 15 := by exact_mod_cast hcf1
  have hs0 : (0:ℚ) ≤ ((⌊d.rowU * (9:ℚ)⌋ : ℤ) : ℚ) := by exact_mod_cast hrf0
  have hs1 : ((⌊d.rowU * (9:ℚ)⌋ : ℤ) : ℚ) ≤ 8 := by exact_mod_cast hrf1
  constructor
  · rw [abs_le]
    constructor <;>
      nlinarith [mul_nonneg hq0 hx.le, mul_nonneg hjx0 hx.le,
        mul_le_mul_of_nonneg_right hq1 hx.le, mul_le_mul_of_nonneg_right hjx1 hx.le]
  · rw [abs_le]
    constructor <;>
      nlinarith [mul_nonneg hs0 hy.le, mul_nonneg hjy0 hy.le,
        mul_le_mul_of_nonneg_right hs1 hy.le, mul_le_mul_of_nonneg_right hjy1 hy.le]

/-- C5 (amended): the anchor TARGETS the scheduler chooses always
satisfy the containment bound — each grid candidate lies strictly
inside the arena (|sx| ≤ limX, |sy| ≤ limY, in fact at least a tenth of
a cell away from the wall) and the degenerate fallback point lies
within 80% of the bounds; the continuously advanced anchor POSITION,
by contrast, can overshoot past the wall (see the counterexample). -/
theorem anchorTarget_containment (J : JsMath) (cfg : Config) (heat : HeatMap)
    (m : Mover) (t limX limY : ℚ) (targets : List TargetScr)
    (others : List Mover) (ad : AnchorDraws)
    (hx : 0 < limX) (hy : 0 < limY)
    (hc : ∀ d ∈ ad.cands, 0 ≤ d.colU ∧ d.colU < 1 ∧ 0 ≤ d.rowU ∧ d.rowU < 1
          ∧ 0 ≤ d.jxU ∧ d.jxU ≤ 1 ∧ 0 ≤ d.jyU ∧ d.jyU ≤ 1)
    (hf1 : 0 ≤ ad.fbU1) (hf1b : ad.fbU1 ≤ 1)
    (hf2 : 0 ≤ ad.fbU2) (hf2b : ad.fbU2 ≤ 1) :
    |(chooseNewAnchorTarget J cfg heat m t limX limY targets others ad).1.anchorTargetSx| ≤ limX
    ∧ |(chooseNewAnchorTarget J cfg heat m t limX limY targets others ad).1.anchorTargetSy| ≤ limY := by
  unfold chooseNewAnchorTarget
  dsimp only
  rcases hbest : bestAnchorCandidate
      (ad.cands.map (evalAnchorCandidate J cfg heat
        ((ROLES m.role).anchorBias + (EPISODES m.episode).anchorBias) m.r limX limY
        targets others)) with _ | b
  · simp only [hbest]
    unfold randAt
    constructor
    · rw [abs_le]
      constructor <;> nlinarith [mul_le_mul_of_nonneg_right hf1b hx.le]
    · rw [abs_le]
      constructor <;> nlinarith [mul_le_mul_of_nonneg_right hf2b hy.le]
  · simp only [hbest]
    have hmem := bestAnchorCandidate_mem _ _ hbest
    obtain ⟨d, hdmem, hdb⟩ := List.mem_map.mp hmem
    have hb := evalAnchorCandidate_inBounds J cfg heat
      ((ROLES m.role).anchorBias + (EPISODES m.episode).anchorBias) m.r limX limY
      targets others d hx hy (hc d hdmem)
    rw [hdb] at hb
    exact hb

/-- Witness for the C5 amended theorem: a single concrete candidate
draw inside a 1280x720 arena yields a target inside the bounds. -/
theorem anchorTarget_containment_witness :
    |(chooseNewAnchorTarget J0 cfg0 heat0 mvHeal 1000 500 220 [] []
        { cands := [{ colU := 1/2, rowU := 1/2, jxU := 1/2, jyU := 1/2 }]
          fbU1 := 0, fbU2 := 0, durU := 0 }).1.anchorTargetSx| ≤ 500
    ∧ |(chooseNewAnchorTarget J0 cfg0 heat0 mvHeal 1000 500 220 [] []
        { cands := [{ colU := 1/2, rowU := 1/2, jxU := 1/2, jyU := 1/2 }]
          fbU1 := 0, fbU2 := 0, durU := 0 }).1.anchorTargetSy| ≤ 220 :=
  anchorTarget_containment J0 cfg0 heat0 mvHeal 1000 500 220 [] []
    { cands := [{ colU := 1/2, rowU := 1/2, jxU := 1/2, jyU := 1/2 }]
      fbU1 := 0, fbU2 := 0, durU := 0 }
    (by norm_num) (by norm_num)
    (by intro d hd; simp at hd; subst hd; norm_num)
    (by norm_num) (by norm_num) (by norm_num) (by norm_num)

/-- Pointwise form of one decay step. -/
lemma decayHeatMap_apply (h : HeatMap) (r : Fin HEAT_ROWS) (c : Fin HEAT_COLS) :
    decayHeatMap h r c = h r c * HEATMAP_DECAY := rfl

/-- Geometric decay of an untouched heat cell. -/
lemma decayHeatMap_iterate (h : HeatMap) (r : Fin HEAT_ROWS) (c : Fin HEAT_COLS) :
    ∀ n : ℕ, (decayHeatMap^[n] h) r c = h r c * HEATMAP_DECAY ^ n := by
  intro n
  induction n with
  | zero => simp
  | succ k ih =>
    rw [Function.iterate_succ_apply', decayHeatMap_apply, ih, pow_succ, mul_assoc]

/-- C7: a heat cell that receives no increments decays geometrically —
after n frames it holds exactly `initial * 0.98^n`, stays non-negative
(as do incremented cells, for the non-negative increments the code
uses), and drops below any positive bound after finitely many
frames. -/
theorem heatDecay_convergence (h : HeatMap) (r : Fin HEAT_ROWS)
    (c : Fin HEAT_COLS) (n : ℕ) (ε : ℚ)
    (hh : 0 ≤ h r c) (hε : 0 < ε) :
    (decayHeatMap^[n] h) r c = h r c * HEATMAP_DECAY ^ n
    ∧ 0 ≤ (decayHeatMap^[n] h) r c
    ∧ (∀ cell amt, 0 ≤ amt → 0 ≤ (bumpHeat h cell amt) r c)
    ∧ ∃ N : ℕ, h r c * HEATMAP_DECAY ^ N < ε := by
  refine ⟨decayHeatMap_iterate h r c n, ?_, ?_, ?_⟩
  · rw [decayHeatMap_iterate h r c n]
    have hd : (0:ℚ) ≤ HEATMAP_DECAY ^ n :=
      pow_nonneg (by norm_num [HEATMAP_DECAY]) n
    exact mul_nonneg hh hd
  · intro cell amt hamt
    unfold bumpHeat
    split
    · exact add_nonneg hh hamt
    · exact hh
  · rcases eq_or_lt_of_le hh with h0 | hpos
    · exact ⟨0, by rw [← h0]; simpa using hε⟩
    · obtain ⟨N, hN⟩ := exists_pow_lt_of_lt_one (div_pos hε hpos)
        (by norm_num [HEATMAP_DECAY] : HEATMAP_DECAY < (1:ℚ))
      refine ⟨N, ?_⟩
      rw [mul_comm]
      exact (lt_div_iff₀ hpos).mp hN

/-- Witness for the C7 theorem: a cell at heat 1 after three frames. -/
theorem heatDecay_convergence_witness :
    (decayHeatMap^[3] (fun _ _ => 1)) ⟨0, by norm_num [HEAT_ROWS]⟩ ⟨0, by norm_num [HEAT_COLS]⟩
        = (1:ℚ) * HEATMAP_DECAY ^ 3
    ∧ (0:ℚ) ≤ (decayHeatMap^[3] (fun _ _ => 1)) ⟨0, by norm_num [HEAT_ROWS]⟩ ⟨0, by norm_num [HEAT_COLS]⟩
    ∧ ∃ N : ℕ, (1:ℚ) * HEATMAP_DECAY ^ N < 1/1000 := by
  have h := heatDecay_convergence (fun _ _ => 1) ⟨0, by norm_num [HEAT_ROWS]⟩
    ⟨0, by norm_num [HEAT_COLS]⟩ 3 (1/1000) (by norm_num) (by norm_num)
  exact ⟨h.1, h.2.1, h.2.2.2⟩

/-- A non-fatal registered hit increments the count and leaves the
dead flag as it was. -/
lemma registerHit_nonfatal (J : JsMath) (cfg : Config) (cv : Canvas)
    (px py cR sR t : ℚ) (sp : SpawnParams) (m : Mover)
    (h : ¬ MOVERS_MAX_HITS ≤ m.hits + 1) :
    (registerHit J cfg cv px py cR sR t sp m).hits = m.hits + 1
    ∧ (registerHit J cfg cv px py cR sR t sp m).dead = m.dead := by
  unfold registerHit
  dsimp only
  rw [if_neg h]
  exact ⟨rfl, rfl⟩

/-- A fatal hit with regen-on-hit enabled respawns the mover in place:
zero hits, alive, and the anchor/micro timestamps freshly reset to the
time of this very call. -/
lemma registerHit_fatal_regen (J : JsMath) (cfg : Config) (cv : Canvas)
    (px py cR sR t : ℚ) (sp : SpawnParams) (m : Mover)
    (hfatal : MOVERS_MAX_HITS ≤ m.hits + 1) (hreg : cfg.regenOnHit = true) :
    (registerHit J cfg cv px py cR sR t sp m).hits = 0
    ∧ (registerHit J cfg cv px py cR sR t sp m).dead = false
    ∧ (registerHit J cfg cv px py cR sR t sp m).anchorPosSx = 0
    ∧ (registerHit J cfg cv px py cR sR t sp m).anchorPosSy = 0
    ∧ (registerHit J cfg cv px py cR sR t sp m).anchorMoveStart = t
    ∧ (registerHit J cfg cv px py cR sR t sp m).microStart = t
    ∧ (registerHit J cfg cv px py cR sR t sp m).microBlendStart = t
    ∧ (registerHit J cfg cv px py cR sR t sp m).prevOffsetX = 0
    ∧ (registerHit J cfg cv px py cR sR t sp m).prevOffsetY = 0 := by
  unfold registerHit
  dsimp only
  rw [if_pos hfatal, if_pos hreg]
  exact ⟨rfl, rfl, rfl, rfl, rfl, rfl, rfl, rfl, rfl⟩

/-- A fatal hit with regen-on-hit disabled marks the mover dead at the
capped hit count. -/
lemma registerHit_fatal_dead (J : JsMath) (cfg : Config) (cv : Canvas)
    (px py cR sR t : ℚ) (sp : SpawnParams) (m : Mover)
    (hfatal : MOVERS_MAX_HITS ≤ m.hits + 1) (hreg : cfg.regenOnHit = false) :
    (registerHit J cfg cv px py cR sR t sp m).dead = true
    ∧ (registerHit J cfg cv px py cR sR t sp m).hits = MOVERS_MAX_HITS := by
  unfold registerHit
  dsimp only
  rw [if_pos hfatal, if_neg (by simp [hreg])]
  exact ⟨rfl, rfl⟩

/-- The hit-test scan returns `-1` or an index at least its cursor. -/
lemma hitTest_go_lower (J : JsMath) (px py : ℚ) :
    ∀ (l : List Mover) (k : Int),
      hitTestMovers.go J px py l k = -1 ∨ k ≤ hitTestMovers.go J px py l k := by
  intro l
  induction l with
  | nil => intro k; exact Or.inl rfl
  | cons m rest ih =>
    intro k
    unfold hitTestMovers.go
    split
    · exact Or.inr (le_refl k)
    · rcases ih (k + 1) with h | h
      · exact Or.inl h
      · exact Or.inr (le_trans (by omega) h)

/-- The hit-test scan never returns the cursor-relative index of a
dead mover. -/
lemma hitTest_go_ne_dead (J : JsMath) (px py : ℚ) :
    ∀ (l : List Mover) (k : Int) (i : ℕ) (hi : i < l.length),
      0 ≤ k → (l.get ⟨i, hi⟩).dead = true →
      hitTestMovers.go J px py l k ≠ k + (i : Int) := by
  intro l
  induction l with
  | nil => intro k i hi; exact absurd hi (by simp)
  | cons m rest ih =>
    intro k i hi hk hdead
    unfold hitTestMovers.go
    split
    · rename_i hcond
      cases i with
      | zero =>
        exact absurd (by simpa using hdead) (by simp [hcond.1])
      | succ j => intro hEq; omega
    · cases i with
      | zero =>
        intro hEq
        rcases hitTest_go_lower J px py rest (k + 1) with h | h
          <;> rw [hEq] at h <;> omega
      | succ j =>
        have hj : j < rest.length := by simpa using hi
        have hdr : (rest.get ⟨j, hj⟩).dead = true := by simpa using hdead
        have := ih (k + 1) j hj (by omega) hdr
        intro hEq
        apply this
        rw [hEq]
        push_cast
        ring

/-- A dead mover is never the hit-test result. -/
lemma hitTest_ne_dead (J : JsMath) (cfg : Config) (px py : ℚ)
    (movers : List Mover) (i : ℕ) (hi : i < movers.length)
    (hdead : (movers.get ⟨i, hi⟩).dead = true) :
    hitTestMovers J cfg px py movers ≠ (i : Int) := by
  unfold hitTestMovers
  split
  · intro h; omega
  · have h := hitTest_go_ne_dead J px py movers 0 i hi (le_refl 0) hdead
    simpa using h

/-- Every mover that comes out of `respawnAllMovers` is alive with zero
hits. -/
lemma respawnAll_alive (J : JsMath) (cfg : Config) (canvas : Option Canvas)
    (px py cR sR t : ℚ) (sps rsps : Nat → SpawnParams)
    (movers ms : List Mover)
    (h : respawnAllMovers J cfg canvas px py cR sR t sps rsps movers = .ok ms) :
    ∀ mm ∈ ms, mm.dead = false ∧ mm.hits = 0 := by
  unfold respawnAllMovers at h
  rcases he : ensureMoversCount J cfg canvas px py cR sR t sps movers with e | l
  · rw [he] at h; exact absurd h (by simp)
  · rw [he] at h
    dsimp only at h
    cases canvas with
    | none =>
      by_cases hl : l.length = 0
      · rw [if_pos hl] at h
        have : ms = [] := by simpa using h.symm
        subst this
        intro mm hmm
        exact absurd hmm (by simp)
      · rw [if_neg hl] at h
        exact absurd h (by simp)
    | some cv =>
      have hms : ms = l.enum.map (fun p =>
          { respawnMover J cfg cv px py cR sR t (rsps p.1) p.2 with
            dead := false, hits := 0, escapeBoost := 0, lastHitTime := 0 }) := by
        simpa using h.symm
      subst hms
      intro mm hmm
      obtain ⟨pp, _, hpp⟩ := List.mem_map.mp hmm
      rw [← hpp]
      exact ⟨rfl, rfl⟩

/-- C1: with `maxHits = 3`, three registered hits on a fresh mover
respawn it within the same call when regen-on-hit is enabled (zero
hits, alive, freshly reset anchor/micro state), and kill it when
regen-on-hit is disabled; a dead mover is never returned by the hit
test, until `respawnAllMovers` revives every mover with zero hits. -/
theorem exhaustion_branching (J : JsMath) (cfgR cfgD : Config) (cv : Canvas)
    (px py cR sR t1 t2 t3 : ℚ) (sp1 sp2 sp3 : SpawnParams) (m0 : Mover)
    (hR : cfgR.regenOnHit = true) (hD : cfgD.regenOnHit = false)
    (h0 : m0.hits = 0) :
    ((registerHit J cfgR cv px py cR sR t3 sp3
        (registerHit J cfgR cv px py cR sR t2 sp2
          (registerHit J cfgR cv px py cR sR t1 sp1 m0))).hits = 0
      ∧ (registerHit J cfgR cv px py cR sR t3 sp3
          (registerHit J cfgR cv px py cR sR t2 sp2
            (registerHit J cfgR cv px py cR sR t1 sp1 m0))).dead = false
      ∧ (registerHit J cfgR cv px py cR sR t3 sp3
          (registerHit J cfgR cv px py cR sR t2 sp2
            (registerHit J cfgR cv px py cR sR t1 sp1 m0))).anchorPosSx = 0
      ∧ (registerHit J cfgR cv px py cR sR t3 sp3
          (registerHit J cfgR cv px py cR sR t2 sp2
            (registerHit J cfgR cv px py cR sR t1 sp1 m0))).anchorPosSy = 0
      ∧ (registerHit J cfgR cv px py cR sR t3 sp3
          (registerHit J cfgR cv px py cR sR t2 sp2
            (registerHit J cfgR cv px py cR sR t1 sp1 m0))).anchorMoveStart = t3
      ∧ (registerHit J cfgR cv px py cR sR t3 sp3
          (registerHit J cfgR cv px py cR sR t2 sp2
            (registerHit J cfgR cv px py cR sR t1 sp1 m0))).microStart = t3
      ∧ (registerHit J cfgR cv px py cR sR t3 sp3
          (registerHit J cfgR cv px py cR sR t2 sp2
            (registerHit J cfgR cv px py cR sR t1 sp1 m0))).microBlendStart = t3)
    ∧ ((registerHit J cfgD cv px py cR sR t3 sp3
          (registerHit J cfgD cv px py cR sR t2 sp2
            (registerHit J cfgD cv px py cR sR t1 sp1 m0))).dead = true
      ∧ (registerHit J cfgD cv px py cR sR t3 sp3
          (registerHit J cfgD cv px py cR sR t2 sp2
            (registerHit J cfgD cv px py cR sR t1 sp1 m0))).hits = MOVERS_MAX_HITS)
    ∧ (∀ (cfg' : Config) (movers : List Mover) (i : ℕ) (hi : i < movers.length),
        (movers.get ⟨i, hi⟩).dead = true →
        hitTestMovers J cfg' px py movers ≠ (i : Int))
    ∧ (∀ (cfg' : Config) (canvas : Option Canvas) (sps rsps : Nat → SpawnParams)
        (movers ms : List Mover),
        respawnAllMovers J cfg' canvas px py cR sR t3 sps rsps movers = .ok ms →
        ∀ mm ∈ ms, mm.dead = false ∧ mm.hits = 0) := by
  refine ⟨?_, ?_, fun cfg' movers i hi hdead =>
      hitTest_ne_dead J cfg' px py movers i hi hdead,
    fun cfg' canvas sps rsps movers ms h =>
      respawnAll_alive J cfg' canvas px py cR sR t3 sps rsps movers ms h⟩
  · have e1 := registerHit_nonfatal J cfgR cv px py cR sR t1 sp1 m0
      (by rw [h0]; decide)
    have e2 := registerHit_nonfatal J cfgR cv px py cR sR t2 sp2
      (registerHit J cfgR cv px py cR sR t1 sp1 m0)
      (by rw [e1.1, h0]; decide)
    have e3 := registerHit_fatal_regen J cfgR cv px py cR sR t3 sp3
      (registerHit J cfgR cv px py cR sR t2 sp2
        (registerHit J cfgR cv px py cR sR t1 sp1 m0))
      (by rw [e2.1, e1.1, h0]; decide) hR
    exact ⟨e3.1, e3.2.1, e3.2.2.1, e3.2.2.2.1, e3.2.2.2.2.1,
      e3.2.2.2.2.2.1, e3.2.2.2.2.2.2.1⟩
  · have e1 := registerHit_nonfatal J cfgD cv px py cR sR t1 sp1 m0
      (by rw [h0]; decide)
    have e2 := registerHit_nonfatal J cfgD cv px py cR sR t2 sp2
      (registerHit J cfgD cv px py cR sR t1 sp1 m0)
      (by rw [e1.1, h0]; decide)
    exact registerHit_fatal_dead J cfgD cv px py cR sR t3 sp3
      (registerHit J cfgD cv px py cR sR t2 sp2
        (registerHit J cfgD cv px py cR sR t1 sp1 m0))
      (by rw [e2.1, e1.1, h0]; decide) hD

/-- Witness for the C1 theorem at a fresh spawned mover, the default
configurations, the 1280x720 canvas and hit times 1000/2000/3000. -/
theorem exhaustion_branching_witness :
    ((registerHit J0 cfg0 cv0 0 0 1 0 3000 sp0
        (registerHit J0 cfg0 cv0 0 0 1 0 2000 sp0
          (registerHit J0 cfg0 cv0 0 0 1 0 1000 sp0
            (spawnMoverInWindow J0 cfg0 cv0 0 0 1 0 0 sp0)))).hits = 0
      ∧ (registerHit J0 cfg0 cv0 0 0 1 0 3000 sp0
          (registerHit J0 cfg0 cv0 0 0 1 0 2000 sp0
            (registerHit J0 cfg0 cv0 0 0 1 0 1000 sp0
              (spawnMoverInWindow J0 cfg0 cv0 0 0 1 0 0 sp0)))).dead = false)
    ∧ ((registerHit J0 cfg0dead cv0 0 0 1 0 3000 sp0
          (registerHit J0 cfg0dead cv0 0 0 1 0 2000 sp0
            (registerHit J0 cfg0dead cv0 0 0 1 0 1000 sp0
              (spawnMoverInWindow J0 cfg0dead cv0 0 0 1 0 0 sp0)))).dead = true) := by
  have hA := exhaustion_branching J0 cfg0 cfg0dead cv0 0 0 1 0 1000 2000 3000
    sp0 sp0 sp0 (spawnMoverInWindow J0 cfg0 cv0 0 0 1 0 0 sp0) rfl rfl
    (spawn_hits J0 cfg0 cv0 0 0 1 0 0 sp0)
  have hB := exhaustion_branching J0 cfg0 cfg0dead cv0 0 0 1 0 1000 2000 3000
    sp0 sp0 sp0 (spawnMoverInWindow J0 cfg0dead cv0 0 0 1 0 0 sp0) rfl rfl
    (spawn_hits J0 cfg0dead cv0 0 0 1 0 0 sp0)
  exact ⟨⟨hA.1.1, hA.1.2.1⟩, hB.2.1.1⟩

/-! C6 infrastructure: bounds for the float remainder, the rpow radii
and the smoothstep easing used by the micro-pattern bodies. -/

/-- The real remainder `a - b * floor (a / b)` lies in `[0, b)` for
positive `b`. -/
lemma jsFmod_bounds (a b : ℝ) (hb : 0 < b) :
    0 ≤ a - b * ⌊a / b⌋ ∧ a - b * ⌊a / b⌋ < b := by
  have h1 : (⌊a / b⌋ : ℝ) ≤ a / b := Int.floor_le _
  have h2 : a / b < (⌊a / b⌋ : ℝ) + 1 := Int.lt_floor_add_one _
  have hc : a / b * b = a := div_mul_cancel₀ a hb.ne'
  constructor
  · nlinarith [mul_le_mul_of_nonneg_right h1 hb.le]
  · nlinarith [mul_lt_mul_of_pos_right h2 hb]

/-- A unit-bounded factor times a factor in `[0, bnd]` stays within
`bnd` in magnitude. -/
lemma abs_mul_le_bound {x r bnd : ℝ} (hx : |x| ≤ 1) (hr0 : 0 ≤ r)
    (hr1 : r ≤ bnd) : |x * r| ≤ bnd := by
  rw [abs_mul, abs_of_nonneg hr0]
  calc |x| * r ≤ 1 * r := mul_le_mul_of_nonneg_right hx hr0
    _ = r := one_mul r
    _ ≤ bnd := hr1

/-- The spiral radius `(fmod elapsed duration / duration) ^ e` lies in
`[0, 1]`. -/
lemma jsFmod_div_rpow_bounds (a b e : ℝ) (hb : 0 < b) (he : 0 ≤ e) :
    0 ≤ Real.rpow ((a - b * ⌊a / b⌋) / b) e
    ∧ Real.rpow ((a - b * ⌊a / b⌋) / b) e ≤ 1 := by
  obtain ⟨hm0, hm1⟩ := jsFmod_bounds a b hb
  have hc0 : 0 ≤ (a - b * ⌊a / b⌋) / b := div_nonneg hm0 hb.le
  have hc1 : (a - b * ⌊a / b⌋) / b ≤ 1 := by rw [div_le_one hb]; linarith
  exact ⟨Real.rpow_nonneg hc0 e, Real.rpow_le_one hc0 hc1 he⟩

/-- The burst radius `(fmod x 1) ^ e` lies in `[0, 1]`. -/
lemma jsFmod_rpow_one_bounds (a e : ℝ) (he : 0 ≤ e) :
    0 ≤ Real.rpow (a - 1 * ⌊a / 1⌋) e
    ∧ Real.rpow (a - 1 * ⌊a / 1⌋) e ≤ 1 := by
  obtain ⟨hm0, hm1⟩ := jsFmod_bounds a 1 one_pos
  exact ⟨Real.rpow_nonneg hm0 e, Real.rpow_le_one hm0 (by linarith) he⟩

/-- The smoothstep easing `u * u * (3 - 2u)` lies in `[0, 1]` on
`[0, 1]`. -/
lemma ease_bounds (u : ℝ) (h0 : 0 ≤ u) (h1 : u ≤ 1) :
    0 ≤ u * u * (3 - 2 * u) ∧ u * u * (3 - 2 * u) ≤ 1 := by
  constructor
  · nlinarith
  · nlinarith [mul_nonneg (mul_nonneg (sub_nonneg.mpr h1) (sub_nonneg.mpr h1))
      (by linarith : (0:ℝ) ≤ 1 + 2 * u)]

/-- The `TIER_SCALE` amplitudes are nonnegative. -/
lemma TIER_SCALE_nonneg (tier : Tier) : (0:ℚ) ≤ TIER_SCALE tier := by
  cases tier <;> norm_num [TIER_SCALE]

/-- The `SPIRAL_SCALE` amplitudes are nonnegative. -/
lemma SPIRAL_SCALE_nonneg (tier : Tier) : (0:ℚ) ≤ SPIRAL_SCALE tier := by
  cases tier <;> norm_num [SPIRAL_SCALE]

/-- Both per-axis amplitudes of `computeMicroOffset` are nonnegative on
nonnegative half-dimensions. -/
lemma microAmp_nonneg (p : PatternName) (tier : Tier) (limX limY : ℝ)
    (hlx : 0 ≤ limX) (hly : 0 ≤ limY) :
    0 ≤ (microAmp p tier limX limY).1 ∧ 0 ≤ (microAmp p tier limX limY).2 := by
  have hS : (0:ℝ) ≤ ((SPIRAL_SCALE tier : ℚ) : ℝ) := by
    exact_mod_cast SPIRAL_SCALE_nonneg tier
  have hT : (0:ℝ) ≤ ((TIER_SCALE tier : ℚ) : ℝ) := by
    exact_mod_cast TIER_SCALE_nonneg tier
  unfold microAmp
  split
  · exact ⟨mul_nonneg hS (le_min hlx hly), mul_nonneg hS (le_min hlx hly)⟩
  · exact ⟨mul_nonneg hT hlx, mul_nonneg hT hly⟩

/-- C6 counterexample: the rosette pattern at zero phases and time zero
returns first component `cos 0 + 0.35 * cos 0 = 1.35`, which exceeds
the claimed normalized bound `1`; scaled by the tier amplitude it
likewise exceeds the tier amplitude itself. -/
theorem rosette_exceeds_cex :
    (1:ℝ) < (microPatternFn Real.sin Real.cos (fun a b => a - b * ⌊a / b⌋)
      (fun x e => Real.rpow x e) PatternName.rosette 0 1 ⟨1, 0, 0, 0, 1000⟩).1
    ∧ (microPatternFn Real.sin Real.cos (fun a b => a - b * ⌊a / b⌋)
      (fun x e => Real.rpow x e) PatternName.rosette 0 1 ⟨1, 0, 0, 0, 1000⟩).1 = 27/20
    ∧ (microAmp PatternName.rosette Tier.S (500:ℝ) 220).1
      < (microPatternFn Real.sin Real.cos (fun a b => a - b * ⌊a / b⌋)
          (fun x e => Real.rpow x e) PatternName.rosette 0 1 ⟨1, 0, 0, 0, 1000⟩).1
        * (microAmp PatternName.rosette Tier.S (500:ℝ) 220).1 := by
  norm_num [microPatternFn, microAmp, TIER_SCALE, PatternName.includesSpiral,
    Real.cos_zero]

/-- C6: every micro-pattern body, over the whole parameter space with
`0 ≤ elapsed ≤ duration`, returns components of magnitude at most
`27/20 = 1.35` (the bound is attained by the rosette, so the
literal `[-1, 1]` normalization does not hold), and hence the offset
after tier scaling is bounded by `1.35` times the per-axis tier
amplitude. -/
theorem microPattern_bounds (p : PatternName) (tier : Tier)
    (t gain limX limY : ℝ) (pr : PatParams ℝ)
    (h0 : 0 ≤ pr.elapsed) (h1 : pr.elapsed ≤ pr.duration)
    (hlx : 0 ≤ limX) (hly : 0 ≤ limY) :
    (|(microPatternFn Real.sin Real.cos (fun a b => a - b * ⌊a / b⌋)
        (fun x e => Real.rpow x e) p t gain pr).1| ≤ 27/20
      ∧ |(microPatternFn Real.sin Real.cos (fun a b => a - b * ⌊a / b⌋)
          (fun x e => Real.rpow x e) p t gain pr).2| ≤ 27/20)
    ∧ |(microPatternFn Real.sin Real.cos (fun a b => a - b * ⌊a / b⌋)
        (fun x e => Real.rpow x e) p t gain pr).1
          * (microAmp p tier limX limY).1|
        ≤ 27/20 * (microAmp p tier limX limY).1
    ∧ |(microPatternFn Real.sin Real.cos (fun a b => a - b * ⌊a / b⌋)
        (fun x e => Real.rpow x e) p t gain pr).2
          * (microAmp p tier limX limY).2|
        ≤ 27/20 * (microAmp p tier limX limY).2 := by
  have hampL := (microAmp_nonneg p tier limX limY hlx hly).1
  have hampR := (microAmp_nonneg p tier limX limY hlx hly).2
  have key : |(microPatternFn Real.sin Real.cos (fun a b => a - b * ⌊a / b⌋)
        (fun x e => Real.rpow x e) p t gain pr).1| ≤ 27/20
      ∧ |(microPatternFn Real.sin Real.cos (fun a b => a - b * ⌊a / b⌋)
          (fun x e => Real.rpow x e) p t gain pr).2| ≤ 27/20 := by
    cases p with
    | figure8 =>
      simp only [microPatternFn]
      exact ⟨le_trans (Real.abs_sin_le_one _) (by norm_num),
        le_trans (Real.abs_sin_le_one _) (by norm_num)⟩
    | figure8Wide =>
      simp only [microPatternFn]
      exact ⟨le_trans (Real.abs_sin_le_one _) (by norm_num),
        abs_mul_le_bound (Real.abs_sin_le_one _) (by norm_num) (by norm_num)⟩
    | figure8Spiral =>
      simp only [microPatternFn]
      by_cases hd : 0 < pr.duration
      · simp only [if_pos hd]
        have hc0 : 0 ≤ pr.elapsed / pr.duration := div_nonneg h0 hd.le
        have hc1 : pr.elapsed / pr.duration ≤ 1 := (div_le_one hd).mpr h1
        exact ⟨abs_mul_le_bound (Real.abs_sin_le_one _) (by linarith) (by linarith),
          abs_mul_le_bound (Real.abs_sin_le_one _) (by linarith) (by linarith)⟩
      · simp only [if_neg hd]
        exact ⟨abs_mul_le_bound (Real.abs_sin_le_one _) (by norm_num) (by norm_num),
          abs_mul_le_bound (Real.abs_sin_le_one _) (by norm_num) (by norm_num)⟩
    | spiral =>
      simp only [microPatternFn]
      by_cases hd : 0 < pr.duration
      · simp only [if_pos hd]
        refine ⟨abs_mul_le_bound (Real.abs_cos_le_one _) ?_ ?_,
          abs_mul_le_bound (Real.abs_sin_le_one _) ?_ ?_⟩
        · exact (jsFmod_div_rpow_bounds _ _ _ hd (by norm_num)).1
        · exact le_trans (jsFmod_div_rpow_bounds _ _ _ hd (by norm_num)).2 (by norm_num)
        · exact (jsFmod_div_rpow_bounds _ _ _ hd (by norm_num)).1
        · exact le_trans (jsFmod_div_rpow_bounds _ _ _ hd (by norm_num)).2 (by norm_num)
      · simp only [if_neg hd]
        refine ⟨abs_mul_le_bound (Real.abs_cos_le_one _) ?_ ?_,
          abs_mul_le_bound (Real.abs_sin_le_one _) ?_ ?_⟩
        · exact Real.rpow_nonneg le_rfl _
        · exact le_trans (Real.rpow_le_one le_rfl zero_le_one (by norm_num)) (by norm_num)
        · exact Real.rpow_nonneg le_rfl _
        · exact le_trans (Real.rpow_le_one le_rfl zero_le_one (by norm_num)) (by norm_num)
    | spiralBurst =>
      simp only [microPatternFn]
      refine ⟨abs_mul_le_bound (Real.abs_cos_le_one _) ?_ ?_,
        abs_mul_le_bound (Real.abs_sin_le_one _) ?_ ?_⟩
      · exact (jsFmod_rpow_one_bounds _ _ (by norm_num)).1
      · exact le_trans (jsFmod_rpow_one_bounds _ _ (by norm_num)).2 (by norm_num)
      · exact (jsFmod_rpow_one_bounds _ _ (by norm_num)).1
      · exact le_trans (jsFmod_rpow_one_bounds _ _ (by norm_num)).2 (by norm_num)
    | rosette =>
      simp only [microPatternFn]
      have h2 : ∀ y : ℝ, |35/100 * Real.cos y| ≤ 35/100 := by
        intro y
        rw [abs_mul]
        refine le_trans (mul_le_mul_of_nonneg_left (Real.abs_cos_le_one y)
          (abs_nonneg _)) ?_
        norm_num [abs_le]
      have h3 : ∀ y : ℝ, |35/100 * Real.sin y| ≤ 35/100 := by
        intro y
        rw [abs_mul]
        refine le_trans (mul_le_mul_of_nonneg_left (Real.abs_sin_le_one y)
          (abs_nonneg _)) ?_
        norm_num [abs_le]
      constructor
      · refine le_trans (abs_add _ _) ?_
        refine le_trans (add_le_add (Real.abs_cos_le_one _) (h2 _)) ?_
        norm_num
      · rw [sub_eq_add_neg]
        refine le_trans (abs_add _ _) ?_
        rw [abs_neg]
        refine le_trans (add_le_add (Real.abs_sin_le_one _) (h3 _)) ?_
        norm_num
    | swerveStop =>
      simp only [microPatternFn]
      by_cases hd : 0 < pr.duration
      · simp only [if_pos hd]
        split
        · constructor <;> norm_num
        · rename_i hcy
          obtain ⟨hm0, hm1⟩ := jsFmod_bounds pr.elapsed pr.duration hd
          have hcle : (pr.elapsed - pr.duration * ⌊pr.elapsed / pr.duration⌋)
              / pr.duration ≤ 1 := by
            rw [div_le_one hd]; linarith
          have hc35 : (35:ℝ)/100 ≤ (pr.elapsed
              - pr.duration * ⌊pr.elapsed / pr.duration⌋) / pr.duration :=
            le_of_not_lt hcy
          have hq0 : (0:ℝ) ≤ ((pr.elapsed
              - pr.duration * ⌊pr.elapsed / pr.duration⌋) / pr.duration
                - 35/100) / (65/100) :=
            div_nonneg (by linarith) (by norm_num)
          have hq1 : ((pr.elapsed
              - pr.duration * ⌊pr.elapsed / pr.duration⌋) / pr.duration
                - 35/100) / (65/100) ≤ 1 := by
            rw [div_le_one (by norm_num : (0:ℝ) < 65/100)]
            linarith
          obtain ⟨he0, he1⟩ := ease_bounds _ hq0 hq1
          exact ⟨abs_mul_le_bound (Real.abs_cos_le_one _) he0
              (le_trans he1 (by norm_num)),
            abs_mul_le_bound (abs_mul_le_bound (Real.abs_sin_le_one _)
                (by norm_num) (by norm_num)) he0 (le_trans he1 (by norm_num))⟩
      · simp only [if_neg hd]
        rw [if_pos (by norm_num : (0:ℝ) < 35/100)]
        constructor <;> norm_num
  refine ⟨key, ?_, ?_⟩
  · rw [abs_mul, abs_of_nonneg hampL]
    exact mul_le_mul_of_nonneg_right key.1 hampL
  · rw [abs_mul, abs_of_nonneg hampR]
    exact mul_le_mul_of_nonneg_right key.2 hampR

/-- Witness for the C6 theorem: the spiral pattern at time 0, gain 1,
unit frequency, zero phases, 500 ms into a 1000 ms window, tier S in a
1280x720 arena. -/
theorem microPattern_bounds_witness :
    (0:ℝ) ≤ (500:ℝ) ∧ (500:ℝ) ≤ 1000
    ∧ |(microPatternFn Real.sin Real.cos (fun a b => a - b * ⌊a / b⌋)
        (fun x e => Real.rpow x e) PatternName.spiral 0 1 ⟨1, 0, 0, 500, 1000⟩).1|
          ≤ 27/20
    ∧ |(microPatternFn Real.sin Real.cos (fun a b => a - b * ⌊a / b⌋)
        (fun x e => Real.rpow x e) PatternName.spiral 0 1 ⟨1, 0, 0, 500, 1000⟩).2|
          ≤ 27/20
    ∧ |(microPatternFn Real.sin Real.cos (fun a b => a - b * ⌊a / b⌋)
        (fun x e => Real.rpow x e) PatternName.spiral 0 1 ⟨1, 0, 0, 500, 1000⟩).1
          * (microAmp PatternName.spiral Tier.S (500:ℝ) 220).1|
        ≤ 27/20 * (microAmp PatternName.spiral Tier.S (500:ℝ) 220).1 := by
  have h := microPattern_bounds PatternName.spiral Tier.S 0 1 500 220
    ⟨1, 0, 0, 500, 1000⟩ (by norm_num) (by norm_num) (by norm_num) (by norm_num)
  exact ⟨by norm_num, by norm_num, h.1.1, h.1.2, h.2.1⟩

end Aim
